import Mathlib

/-!
# FileSystemLibrary: file-type filters and dialog results

A shallow embedding of the dialog layer of the FileSystemLibrary plugin
(`DialogManagerAndroid.cpp`, `DialogManagerLinux.cpp`,
`FileSystemLibraryBPLibrary.cpp`) and theorems about it.

Modelling conventions.

* An `FString` is the sequence of its `TCHAR`s, without the terminating NUL; the
  characters of an `FString` are taken to be different from NUL, as the engine
  requires.
* A `TArray<FString>` is a `List FString`; `Add` appends at the end.
* A function with an out-parameter returns the pair of its return value and the
  out-parameter after the call.
* A pointer that may be null is an `Option`; what the engine or the platform hands
  to a driver (handles, native pickers, method lookup) is a parameter of the driver.
* A method of `DialogManagerLinux` is given twice: as the pair of its return value
  and out-array, and, under the name `traced`, with the list of the native dialogs
  it opens; the two agree on the return value and the out-array.
* A method of `DialogManagerAndroid` takes the object's fields and gives an
  `Outcome`: the values it returns with, the fields after the call and the Java calls
  it issued, or `fatal` when a `checkf` fails.
* The file system is a state `σ` behind the engine's file calls (`FileLayer σ`); a
  function that can change it returns the state after the call.
* An `int` is an `Int` in the 32-bit range; the conversion from `int64` is `ToInt32`.
* The engine routines the plugin calls (`FString::ParseIntoArray`,
  `FString::Contains`, `FString::EndsWith`, `operator==`, `FPaths::GetExtension`,
  `TMap::Add`, `TMap::Find`) are embedded from their engine definitions.
-/

namespace FileSystemLibrary

/-! ## Engine strings -/

/-- The engine string type: a sequence of characters. -/
abbrev FString := List Char

/-- The literal `TEXT("...")`. -/
abbrev TEXT (s : String) : FString := s.toList

/-- `ESearchCase::Type`. -/
inductive ESearchCase where
  | CaseSensitive
  | IgnoreCase
  deriving DecidableEq, Repr

/-- `BothAscii` of the engine's `Stricmp`: both code units are below 128. -/
def BothAscii (C1 C2 : Char) : Bool :=
  decide (C1.toNat < 128) && decide (C2.toNat < 128)

/-- The engine's `LowerAscii` table: `A`..`Z` go to `a`..`z`, every other
code unit is kept. -/
def LowerAscii (C : Char) : Nat :=
  if 65 ≤ C.toNat ∧ C.toNat ≤ 90 then C.toNat + 32 else C.toNat

/-- One step of the character comparison of `Stricmp`/`Strnicmp`: identical code
units match, and two ASCII code units match when their lower-case forms do. -/
def TChar.Matches (SearchCase : ESearchCase) (C1 C2 : Char) : Bool :=
  match SearchCase with
  | .CaseSensitive => C1 == C2
  | .IgnoreCase => C1 == C2 || (BothAscii C1 C2 && LowerAscii C1 == LowerAscii C2)

/-- `FString::Equals(Other, SearchCase)`: `Strcmp` or `Stricmp` is zero. -/
def FString.Equals (SearchCase : ESearchCase) : FString → FString → Bool
  | [], [] => true
  | C1 :: S1, C2 :: S2 => TChar.Matches SearchCase C1 C2 && FString.Equals SearchCase S1 S2
  | _, _ => false

/-- `operator==` on `FString`, which ignores case. -/
def FString.eq (A B : FString) : Bool := FString.Equals .IgnoreCase A B

/-- `operator!=` on `FString`. -/
def FString.ne (A B : FString) : Bool := !FString.eq A B

/-- `Strncmp`/`Strnicmp` of `SubStr` against the start of `Str`: whether
`SubStr` occurs at the head of `Str`. -/
def FString.MatchesAt (SearchCase : ESearchCase) : FString → FString → Bool
  | _, [] => true
  | [], _ :: _ => false
  | C :: Str, F :: SubStr => TChar.Matches SearchCase C F && FString.MatchesAt SearchCase Str SubStr

/-- `FString::Find(SubStr, SearchCase, ESearchDir::FromStart)`: the index of the
first occurrence, `none` for `INDEX_NONE`. -/
def FString.Find (SearchCase : ESearchCase) (SubStr : FString) : FString → Option Nat
  | [] => if FString.MatchesAt SearchCase [] SubStr then some 0 else none
  | C :: Str =>
    if FString.MatchesAt SearchCase (C :: Str) SubStr then some 0
    else (FString.Find SearchCase SubStr Str).map (· + 1)

/-- `FString::Find(SubStr, SearchCase, ESearchDir::FromEnd)`: the index of the
last occurrence, `none` for `INDEX_NONE`. -/
def FString.FindFromEnd (SearchCase : ESearchCase) (SubStr : FString) : FString → Option Nat
  | [] => none
  | C :: Str =>
    match FString.FindFromEnd SearchCase SubStr Str with
    | some i => some (i + 1)
    | none => if FString.MatchesAt SearchCase (C :: Str) SubStr then some 0 else none

/-- `FString::Contains(SubStr, SearchCase)`: `Find` is not `INDEX_NONE`. -/
def FString.Contains (Str SubStr : FString) (SearchCase : ESearchCase) : Bool :=
  (FString.Find SearchCase SubStr Str).isSome

/-- `FString::EndsWith(InSuffix, SearchCase)`. -/
def FString.EndsWith (Str InSuffix : FString) (SearchCase : ESearchCase) : Bool :=
  if InSuffix.isEmpty then false
  else if InSuffix.length > Str.length then false
  else FString.Equals SearchCase (Str.drop (Str.length - InSuffix.length)) InSuffix

/-- `FString::Mid(Start, Count)`. -/
def FString.Mid (Str : FString) (Start Count : Nat) : FString := (Str.drop Start).take Count

/-- The scanning loop of `FString::ParseIntoArray`. `Skip` counts the characters
of a delimiter occurrence still to be passed over, and `Tok` holds, reversed, the
characters read since `Start`. -/
def ParseIntoArray.scan (pchDelim : FString) (InCullEmpty : Bool) :
    FString → Nat → FString → List FString
  | [], _, Tok => if !InCullEmpty || !Tok.isEmpty then [Tok.reverse] else []
  | _ :: Rest, Skip + 1, Tok => ParseIntoArray.scan pchDelim InCullEmpty Rest Skip Tok
  | C :: Rest, 0, Tok =>
    if FString.MatchesAt .CaseSensitive (C :: Rest) pchDelim then
      (if !InCullEmpty || !Tok.isEmpty then [Tok.reverse] else [])
        ++ ParseIntoArray.scan pchDelim InCullEmpty Rest (pchDelim.length - 1) []
    else ParseIntoArray.scan pchDelim InCullEmpty Rest 0 (C :: Tok)

/-- `FString::ParseIntoArray(OutArray, pchDelim, InCullEmpty)`: the array is
reset, and filled only when the string and the delimiter are both non-empty. -/
def FString.ParseIntoArray (Str pchDelim : FString) (InCullEmpty : Bool) : List FString :=
  if !Str.isEmpty && !pchDelim.isEmpty then ParseIntoArray.scan pchDelim InCullEmpty Str 0 []
  else []

/-! ## Engine paths -/

/-- The predicate `IsSlashOrBackslash` of `FPaths`. -/
def IsSlashOrBackslash (C : Char) : Bool := C == '/' || C == '\\'

/-- `FString::FindLastCharByPredicate(Pred, Count)`: the last index below `Count`
whose character satisfies `Pred`, `none` for `INDEX_NONE`. -/
def FString.FindLastCharByPredicate (Pred : Char → Bool) : FString → Nat → Option Nat
  | _, 0 => none
  | Str, Count + 1 =>
    match Str.get? Count with
    | some C => if Pred C then some Count else FString.FindLastCharByPredicate Pred Str Count
    | none => FString.FindLastCharByPredicate Pred Str Count

/-- `INDEX_NONE + 1 = 0`, and `i + 1` for a found index `i`. -/
def IndexPlusOne : Option Nat → Nat
  | none => 0
  | some i => i + 1

/-- `FPaths::GetCleanFilename`: the last component of the path, trailing
separators dropped. -/
def FPaths.GetCleanFilename (InPath : FString) : FString :=
  let EndPos := IndexPlusOne
    (FString.FindLastCharByPredicate (fun C => !IsSlashOrBackslash C) InPath InPath.length)
  let StartPos := IndexPlusOne (FString.FindLastCharByPredicate IsSlashOrBackslash InPath EndPos)
  FString.Mid InPath StartPos (EndPos - StartPos)

/-- `FPaths::GetExtension(InPath, bIncludeDot)`. -/
def FPaths.GetExtension (InPath : FString) (bIncludeDot : Bool) : FString :=
  let Filename := FPaths.GetCleanFilename InPath
  match FString.FindFromEnd .CaseSensitive (TEXT ".") Filename with
  | some DotPos => Filename.drop (DotPos + (if bIncludeDot then 0 else 1))
  | none => TEXT ""

/-! ## Engine maps -/

/-- A `TMap<FString, FString>`: its pairs in insertion order. Keys are compared
with `operator==`. -/
abbrev TMap := List (FString × FString)

/-- `TMap::Add`: the pair replaces the pair of an equal key, or is appended. -/
def TMap.Add : TMap → FString → FString → TMap
  | [], Key, Value => [(Key, Value)]
  | (K, V) :: M, Key, Value =>
    if FString.eq K Key then (Key, Value) :: M else (K, V) :: TMap.Add M Key Value

/-- `TMap::Find`: the value of the pair whose key equals `Key`. -/
def TMap.Find : TMap → FString → Option FString
  | [], _ => none
  | (K, V) :: M, Key => if FString.eq K Key then some V else TMap.Find M Key

/-- `TMap::Contains`: some pair has a key equal to `Key`. -/
def TMap.Contains (M : TMap) (Key : FString) : Bool := M.any (fun KV => FString.eq KV.1 Key)

/-- The `Add` calls of an initialisation block, in their order. -/
def TMap.AddAll (M : TMap) (Pairs : List (FString × FString)) : TMap :=
  Pairs.foldl (fun M KV => TMap.Add M KV.1 KV.2) M

/-! ## DialogManagerAndroid: file types to MIME types -/

/-- The static `ExtensionMimeTypeMap` of `GetMimeTypeFromFilePath`, as filled on
first use. -/
def DialogManagerAndroid.ExtensionMimeTypeMap : TMap :=
  TMap.AddAll [] [
    -- Web
    (TEXT ".html", TEXT "text/html"),
    (TEXT ".css", TEXT "text/css"),
    (TEXT ".js", TEXT "application/x-javascript"),
    -- Video
    (TEXT ".avi", TEXT "video/msvideo, video/avi, video/x-msvideo"),
    (TEXT ".mpeg", TEXT "video/mpeg"),
    -- Image
    (TEXT ".bmp", TEXT "image/bmp"),
    (TEXT ".gif", TEXT "image/gif"),
    (TEXT ".jpg", TEXT "image/jpeg"),
    (TEXT ".jpeg", TEXT "image/jpeg"),
    (TEXT ".png", TEXT "image/png"),
    (TEXT ".svg", TEXT "image/svg+xml"),
    (TEXT ".tiff", TEXT "image/tiff"),
    -- Audio
    (TEXT ".midi", TEXT "audio/x-midi"),
    (TEXT ".mp3", TEXT "audio/mpeg"),
    (TEXT ".ogg", TEXT "audio/vorbis, application/ogg"),
    (TEXT ".wav", TEXT "audio/wav, audio/x-wav"),
    -- Documents
    (TEXT ".xml", TEXT "application/xml"),
    (TEXT ".txt", TEXT "text/plain"),
    (TEXT ".tsv", TEXT "text/tab-separated-values"),
    (TEXT ".csv", TEXT "text/csv"),
    (TEXT ".json", TEXT "application/json"),
    (TEXT ".pdf", TEXT "application/pdf"),
    (TEXT ".doc", TEXT "application/msword"),
    (TEXT ".docx", TEXT "application/vnd.openxmlformats-officedocument.wordprocessingml.document"),
    (TEXT ".xls", TEXT "application/vnd.ms-excel"),
    (TEXT ".xlsx", TEXT "application/vnd.openxmlformats-officedocument.spreadsheetml.sheet"),
    (TEXT ".ppt", TEXT "application/vnd.ms-powerpoint"),
    (TEXT ".pptx",
      TEXT "application/vnd.openxmlformats-officedocument.presentationml.presentation"),
    -- Compressed
    (TEXT ".zip", TEXT "application/zip, application/x-compressed-zip"),
    (TEXT ".7z", TEXT "application/x-7z-compressed"),
    (TEXT ".rar", TEXT "application/x-rar-compressed"),
    -- Android package
    (TEXT ".apk", TEXT "application/vnd.android.package-archive"),
    -- Others
    (TEXT ".bin", TEXT "application/octet-stream"),
    (TEXT ".exe", TEXT "application/x-msdownload"),
    (TEXT ".epub", TEXT "application/epub+zip")]

/-- `DialogManagerAndroid::GetMimeTypeFromFilePath`. -/
def DialogManagerAndroid.GetMimeTypeFromFilePath (FilePath : FString) : FString :=
  let FileExtension := FPaths.GetExtension FilePath true
  match TMap.Find ExtensionMimeTypeMap FileExtension with
  | some FoundMimeType => FoundMimeType
  | none => TEXT "*/*"

/-- `DialogManagerAndroid::ConvertFileTypesToMimeTypes`. -/
def DialogManagerAndroid.ConvertFileTypesToMimeTypes (FileTypes : FString) : List FString :=
  let Tokens := FString.ParseIntoArray FileTypes (TEXT "|") true
  let Result := Tokens.foldl
    (fun Result Token =>
      if FString.Contains Token (TEXT "*.") .IgnoreCase then
        Result ++ [GetMimeTypeFromFilePath Token]
      else Result)
    []
  if Result.length = 0 then Result ++ [TEXT "*/*"] else Result

/-! ## DialogManager: the platform drivers -/

/-- The virtual interface of `DialogManager`. Each operation takes the arguments
of the C++ method, the out-array as the caller passes it, and gives the return
value with the out-array after the call. -/
structure DialogManager where
  /-- `OpenFileDialog(DialogTitle, DefaultPath, FileTypes, bMultiSelect, OutFilenames)`. -/
  OpenFileDialog : FString → FString → FString → Bool → List FString → Bool × List FString
  /-- `SaveFileDialog(DialogTitle, DefaultPath, DefaultFile, FileTypes, bMultiSelect,
  OutFilenames)`. -/
  SaveFileDialog :
    FString → FString → FString → FString → Bool → List FString → Bool × List FString
  /-- `OpenDirectoryDialog(DialogTitle, DefaultPath, bMultiSelect, OutDirectories)`. -/
  OpenDirectoryDialog : FString → FString → Bool → List FString → Bool × List FString

/-- `EFileDialogFlags::Type`. -/
inductive EFileDialogFlags where
  | None
  | Multiple
  deriving DecidableEq, Repr

/-- The part of `IDesktopPlatform` that `DialogManagerLinux` calls. The window
handle is a number; the out-parameter of each call starts empty and is returned
with the call's result. -/
structure IDesktopPlatform where
  /-- `OpenFileDialog(ParentWindowHandle, DialogTitle, DefaultPath, DefaultFile,
  FileTypes, Flags, OutFilenames)`. -/
  OpenFileDialog :
    Nat → FString → FString → FString → FString → EFileDialogFlags → Bool × List FString
  /-- `SaveFileDialog(ParentWindowHandle, DialogTitle, DefaultPath, DefaultFile,
  FileTypes, Flags, OutFilenames)`. -/
  SaveFileDialog :
    Nat → FString → FString → FString → FString → EFileDialogFlags → Bool × List FString
  /-- `OpenDirectoryDialog(ParentWindowHandle, DialogTitle, DefaultPath,
  OutFolderName)`. -/
  OpenDirectoryDialog : Nat → FString → FString → Bool × FString

/-- What `DialogManagerLinux` obtains from the engine: `FDesktopPlatformModule::Get()`
and `GetOSWindowHandle()`, each `none` for a null pointer. -/
structure LinuxPlatform where
  /-- The result of `FDesktopPlatformModule::Get()`. -/
  DesktopPlatform : Option IDesktopPlatform
  /-- The result of `GetOSWindowHandle()`. -/
  ParentWindowHandle : Option Nat

/-- `DialogManagerLinux::OpenDirectoryDialog`. -/
def DialogManagerLinux.OpenDirectoryDialog (Platform : LinuxPlatform)
    (DialogTitle DefaultPath : FString) (_bMultiSelect : Bool)
    (OutDirectories : List FString) : Bool × List FString :=
  match Platform.DesktopPlatform, Platform.ParentWindowHandle with
  | some DesktopPlatform, some ParentWindowHandle =>
    -- Opens the dialog window
    let Native := DesktopPlatform.OpenDirectoryDialog ParentWindowHandle DialogTitle DefaultPath
    if Native.1 then
      -- Checks that the returned path isn't empty
      if FString.ne Native.2 (TEXT "") then
        -- Checks if the return path ends with "/"
        let ReturnPath :=
          if !FString.EndsWith Native.2 (TEXT "/") .IgnoreCase then Native.2 ++ TEXT "/"
          else Native.2
        (true, OutDirectories ++ [ReturnPath])
      else (false, OutDirectories)
    else (false, OutDirectories)
  | _, _ => (false, OutDirectories)

/-- `DialogManagerLinux::OpenFileDialog`. -/
def DialogManagerLinux.OpenFileDialog (Platform : LinuxPlatform)
    (DialogTitle DefaultPath FileTypes : FString) (bMultiSelect : Bool)
    (OutFilenames : List FString) : Bool × List FString :=
  match Platform.DesktopPlatform, Platform.ParentWindowHandle with
  | some DesktopPlatform, some ParentWindowHandle =>
    let Flags := if bMultiSelect then EFileDialogFlags.Multiple else EFileDialogFlags.None
    -- Opens the dialog window
    let Native := DesktopPlatform.OpenFileDialog ParentWindowHandle DialogTitle DefaultPath
      (TEXT "") FileTypes Flags
    if Native.1 then
      -- Checks that there is at least 1 path to return
      if h : Native.2.length > 0 then
        -- Checks that the first path isn't empty
        if FString.ne (Native.2.get ⟨0, h⟩) (TEXT "") then (true, Native.2)
        else (false, OutFilenames)
      else (false, OutFilenames)
    else (false, OutFilenames)
  | _, _ => (false, OutFilenames)

/-- `DialogManagerLinux::SaveFileDialog`. -/
def DialogManagerLinux.SaveFileDialog (Platform : LinuxPlatform)
    (DialogTitle DefaultPath DefaultFile FileTypes : FString) (_bMultiSelect : Bool)
    (OutFilenames : List FString) : Bool × List FString :=
  match Platform.DesktopPlatform, Platform.ParentWindowHandle with
  | some DesktopPlatform, some ParentWindowHandle =>
    -- Opens the dialog window
    let Native := DesktopPlatform.SaveFileDialog ParentWindowHandle DialogTitle DefaultPath
      DefaultFile FileTypes EFileDialogFlags.None
    if Native.1 then
      -- Check that the path isn't empty
      if h : Native.2.length > 0 then
        if FString.ne (Native.2.get ⟨0, h⟩) (TEXT "") then (true, Native.2)
        else (false, OutFilenames)
      else (false, OutFilenames)
    else (false, OutFilenames)
  | _, _ => (false, OutFilenames)

/-- A call of `DialogManagerLinux` into `IDesktopPlatform`: the native dialog it
opens, with the arguments of the call. -/
inductive NativeCall where
  /-- `DesktopPlatform->OpenFileDialog(ParentWindowHandle, DialogTitle, DefaultPath,
  DefaultFile, FileTypes, Flags, OutFilenames)`. -/
  | OpenFileDialog (ParentWindowHandle : Nat)
      (DialogTitle DefaultPath DefaultFile FileTypes : FString) (Flags : EFileDialogFlags)
  /-- `DesktopPlatform->SaveFileDialog(ParentWindowHandle, DialogTitle, DefaultPath,
  DefaultFile, FileTypes, Flags, OutFilenames)`. -/
  | SaveFileDialog (ParentWindowHandle : Nat)
      (DialogTitle DefaultPath DefaultFile FileTypes : FString) (Flags : EFileDialogFlags)
  /-- `DesktopPlatform->OpenDirectoryDialog(ParentWindowHandle, DialogTitle, DefaultPath,
  OutFolderName)`. -/
  | OpenDirectoryDialog (ParentWindowHandle : Nat) (DialogTitle DefaultPath : FString)
  deriving DecidableEq, Repr

/-- What a method of `DialogManagerLinux` ends with: its return value, the out-array
after the call, and the native dialogs it opened, in their order. -/
structure LinuxDialogReturn where
  /-- The value returned. -/
  ReturnValue : Bool
  /-- The out-array after the call. -/
  OutArray : List FString
  /-- The calls made into `IDesktopPlatform`. -/
  NativeCalls : List NativeCall
  deriving DecidableEq, Repr

/-- `DialogManagerLinux::OpenDirectoryDialog`, with the native dialogs it opens:
every `DesktopPlatform->` call of the body is recorded where the body makes it. -/
def DialogManagerLinux.OpenDirectoryDialog.traced (Platform : LinuxPlatform)
    (DialogTitle DefaultPath : FString) (_bMultiSelect : Bool)
    (OutDirectories : List FString) : LinuxDialogReturn :=
  match Platform.DesktopPlatform, Platform.ParentWindowHandle with
  | some DesktopPlatform, some ParentWindowHandle =>
    -- Opens the dialog window
    let Call := NativeCall.OpenDirectoryDialog ParentWindowHandle DialogTitle DefaultPath
    let Native := DesktopPlatform.OpenDirectoryDialog ParentWindowHandle DialogTitle DefaultPath
    if Native.1 then
      -- Checks that the returned path isn't empty
      if FString.ne Native.2 (TEXT "") then
        -- Checks if the return path ends with "/"
        let ReturnPath :=
          if !FString.EndsWith Native.2 (TEXT "/") .IgnoreCase then Native.2 ++ TEXT "/"
          else Native.2
        ⟨true, OutDirectories ++ [ReturnPath], [Call]⟩
      else ⟨false, OutDirectories, [Call]⟩
    else ⟨false, OutDirectories, [Call]⟩
  | _, _ => ⟨false, OutDirectories, []⟩

/-- `DialogManagerLinux::OpenFileDialog`, with the native dialogs it opens. -/
def DialogManagerLinux.OpenFileDialog.traced (Platform : LinuxPlatform)
    (DialogTitle DefaultPath FileTypes : FString) (bMultiSelect : Bool)
    (OutFilenames : List FString) : LinuxDialogReturn :=
  match Platform.DesktopPlatform, Platform.ParentWindowHandle with
  | some DesktopPlatform, some ParentWindowHandle =>
    let Flags := if bMultiSelect then EFileDialogFlags.Multiple else EFileDialogFlags.None
    -- Opens the dialog window
    let Call := NativeCall.OpenFileDialog ParentWindowHandle DialogTitle DefaultPath
      (TEXT "") FileTypes Flags
    let Native := DesktopPlatform.OpenFileDialog ParentWindowHandle DialogTitle DefaultPath
      (TEXT "") FileTypes Flags
    if Native.1 then
      -- Checks that there is at least 1 path to return
      if h : Native.2.length > 0 then
        -- Checks that the first path isn't empty
        if FString.ne (Native.2.get ⟨0, h⟩) (TEXT "") then ⟨true, Native.2, [Call]⟩
        else ⟨false, OutFilenames, [Call]⟩
      else ⟨false, OutFilenames, [Call]⟩
    else ⟨false, OutFilenames, [Call]⟩
  | _, _ => ⟨false, OutFilenames, []⟩

/-- `DialogManagerLinux::SaveFileDialog`, with the native dialogs it opens. -/
def DialogManagerLinux.SaveFileDialog.traced (Platform : LinuxPlatform)
    (DialogTitle DefaultPath DefaultFile FileTypes : FString) (_bMultiSelect : Bool)
    (OutFilenames : List FString) : LinuxDialogReturn :=
  match Platform.DesktopPlatform, Platform.ParentWindowHandle with
  | some DesktopPlatform, some ParentWindowHandle =>
    -- Opens the dialog window
    let Call := NativeCall.SaveFileDialog ParentWindowHandle DialogTitle DefaultPath
      DefaultFile FileTypes EFileDialogFlags.None
    let Native := DesktopPlatform.SaveFileDialog ParentWindowHandle DialogTitle DefaultPath
      DefaultFile FileTypes EFileDialogFlags.None
    if Native.1 then
      -- Check that the path isn't empty
      if h : Native.2.length > 0 then
        if FString.ne (Native.2.get ⟨0, h⟩) (TEXT "") then ⟨true, Native.2, [Call]⟩
        else ⟨false, OutFilenames, [Call]⟩
      else ⟨false, OutFilenames, [Call]⟩
    else ⟨false, OutFilenames, [Call]⟩
  | _, _ => ⟨false, OutFilenames, []⟩

/-- `DialogManager::OpenFileDialog`, the implementation of the base class. -/
def DialogManagerBase.OpenFileDialog (_DialogTitle _DefaultPath _FileTypes : FString)
    (_bMultiSelect : Bool) (OutFilenames : List FString) : Bool × List FString :=
  (false, OutFilenames)

/-- `DialogManager::SaveFileDialog`, the implementation of the base class. -/
def DialogManagerBase.SaveFileDialog (_DialogTitle _DefaultPath _DefaultFile _FileTypes : FString)
    (_bMultiSelect : Bool) (OutFilenames : List FString) : Bool × List FString :=
  (false, OutFilenames)

/-- `DialogManager::OpenDirectoryDialog`, the implementation of the base class. -/
def DialogManagerBase.OpenDirectoryDialog (_DialogTitle _DefaultPath : FString)
    (_MultiSelect : Bool) (OutDirectories : List FString) : Bool × List FString :=
  (false, OutDirectories)

/-! ## DialogManagerAndroid: the asynchronous driver -/

/-- The fields of a `DialogManagerAndroid` object. -/
structure DialogManagerAndroid where
  /-- The member `bRecievedResults`. -/
  bRecievedResults : Bool := false
  /-- The member `Results`. -/
  Results : List FString := []
  deriving DecidableEq, Repr

/-- What the Android driver obtains from its build and from the engine. -/
structure AndroidPlatform where
  /-- The macro `PLATFORM_ANDROID`. -/
  PLATFORM_ANDROID : Bool
  /-- The result of `FAndroidApplication::GetJavaEnv()`, `none` for null. -/
  JavaEnv : Option Nat
  /-- `FJavaWrapper::FindMethod(Env, GameActivityClassID, MethodName, MethodSignature,
  false)`: the method id, `none` for null. The lookup gives the same answer at every
  call, so the function-local `static` that caches it holds this value. -/
  FindMethod : String → String → Option Nat

/-- An argument of a Java call. A null reference is `none`. -/
inductive JavaArg where
  /-- A `jobject`. -/
  | jobject (Ref : Option Nat)
  /-- A `jstring` with its characters. -/
  | jstring (Chars : Option FString)
  /-- A `jobjectArray` of `jstring`s. -/
  | jobjectArray (Elements : List (Option FString))
  /-- A `jboolean`. -/
  | jboolean (Value : Bool)
  deriving DecidableEq, Repr

/-- One `FJavaWrapper::CallVoidMethod(Env, GameActivityThis, Method, Args...)`. -/
structure JavaCall where
  /-- The method id. -/
  Method : Nat
  /-- The arguments, in order. -/
  Args : List JavaArg
  deriving DecidableEq, Repr

/-- How a call ends: it returns a value, or a `checkf` fails and the process is
terminated (`checkf` is taken as compiled in, as in every build with `DO_CHECK`).
A failed range check of a `TArray` ends a call the same way. -/
inductive Outcome (α : Type) where
  /-- The call returns. -/
  | returned (Value : α)
  /-- A failed `checkf`. -/
  | fatal
  deriving DecidableEq, Repr

/-- What a dialog method of `DialogManagerAndroid` leaves when it returns. -/
structure AndroidDialogReturn where
  /-- The return value. -/
  ReturnValue : Bool
  /-- The out-array after the call. -/
  OutArray : List FString
  /-- The object's fields after the call. -/
  Self : DialogManagerAndroid
  /-- The Java calls issued through `CallVoidMethod`, in order. -/
  JavaCalls : List JavaCall
  deriving DecidableEq, Repr

/-- `Env->NewObjectArray(MimeTypes.Num(), JavaStringClass, nullptr)` followed by the
loop that sets element `i` to `NewStringUTF(MimeTypes[i])`. -/
def DialogManagerAndroid.NewMimeTypeArray (MimeTypes : List FString) : List (Option FString) :=
  (List.range MimeTypes.length).foldl
    (fun jMimeTypes i => jMimeTypes.set i (MimeTypes.get? i))
    (List.replicate MimeTypes.length none)

/-- `DialogManagerAndroid::OpenFileDialog`. -/
def DialogManagerAndroid.OpenFileDialog (Self : DialogManagerAndroid)
    (Platform : AndroidPlatform) (_DialogTitle _DefaultPath FileTypes : FString)
    (bMultiSelect : Bool) (OutFilenames : List FString) : Outcome AndroidDialogReturn :=
  if Platform.PLATFORM_ANDROID then
    match Platform.JavaEnv with
    | none => .returned ⟨false, OutFilenames, Self, []⟩
    | some _ =>
      match Platform.FindMethod "AndroidThunkJava_fflOpenFileDialog"
          "(Landroid/net/Uri;[Ljava/lang/String;Z)V" with
      | none => .fatal
      | some AndroidThunkJava_fflOpenFileDialog =>
        let jUriDefaultPath : Option Nat := none
        let jMultiSelect := bMultiSelect
        let MimeTypes := ConvertFileTypesToMimeTypes FileTypes
        let jMimeTypes := NewMimeTypeArray MimeTypes
        .returned ⟨true, OutFilenames, Self,
          [⟨AndroidThunkJava_fflOpenFileDialog,
            [.jobject jUriDefaultPath, .jobjectArray jMimeTypes, .jboolean jMultiSelect]⟩]⟩
  else .returned ⟨false, OutFilenames, Self, []⟩

/-- `DialogManagerAndroid::SaveFileDialog`. -/
def DialogManagerAndroid.SaveFileDialog (Self : DialogManagerAndroid)
    (Platform : AndroidPlatform) (_DialogTitle _DefaultPath DefaultFile FileTypes : FString)
    (bMultiSelect : Bool) (OutFilenames : List FString) : Outcome AndroidDialogReturn :=
  if Platform.PLATFORM_ANDROID then
    match Platform.JavaEnv with
    | none => .returned ⟨false, OutFilenames, Self, []⟩
    | some _ =>
      match Platform.FindMethod "AndroidThunkJava_fflSaveFileDialog"
          "(Ljava/lang/String;Landroid/net/Uri;[Ljava/lang/String;Z)V" with
      | none => .fatal
      | some AndroidThunkJava_fflSaveFileDialog =>
        let jDefaultFile : Option FString := some DefaultFile
        let jUriDefaultPath : Option Nat := none
        let jMultiSelect := bMultiSelect
        let MimeTypes := ConvertFileTypesToMimeTypes FileTypes
        let jMimeTypes := NewMimeTypeArray MimeTypes
        .returned ⟨true, OutFilenames, Self,
          [⟨AndroidThunkJava_fflSaveFileDialog,
            [.jstring jDefaultFile, .jobject jUriDefaultPath, .jobjectArray jMimeTypes,
              .jboolean jMultiSelect]⟩]⟩
  else .returned ⟨false, OutFilenames, Self, []⟩

/-- `DialogManagerAndroid::OpenDirectoryDialog`. -/
def DialogManagerAndroid.OpenDirectoryDialog (Self : DialogManagerAndroid)
    (Platform : AndroidPlatform) (_DialogTitle _DefaultPath : FString)
    (bMultiSelect : Bool) (OutDirectories : List FString) : Outcome AndroidDialogReturn :=
  if Platform.PLATFORM_ANDROID then
    match Platform.JavaEnv with
    | none => .returned ⟨false, OutDirectories, Self, []⟩
    | some _ =>
      match Platform.FindMethod "AndroidThunkJava_fflOpenDirectoryDialog"
          "(Landroid/net/Uri;Z)V" with
      | none => .fatal
      | some AndroidThunkJava_fflOpenDirectoryDialog =>
        let jUriDefaultPath : Option Nat := none
        let jMultiSelect := bMultiSelect
        .returned ⟨true, OutDirectories, Self,
          [⟨AndroidThunkJava_fflOpenDirectoryDialog,
            [.jobject jUriDefaultPath, .jboolean jMultiSelect]⟩]⟩
  else .returned ⟨false, OutDirectories, Self, []⟩

/-- `DialogManagerAndroid::HandleDialogResults`. -/
def DialogManagerAndroid.HandleDialogResults (Self : DialogManagerAndroid)
    (Paths : List FString) : DialogManagerAndroid :=
  { Self with Results := Paths, bRecievedResults := true }

/-- `DialogManagerAndroid::ResetResults`. -/
def DialogManagerAndroid.ResetResults (Self : DialogManagerAndroid) : DialogManagerAndroid :=
  { Self with bRecievedResults := false, Results := [] }

/-- `Java_com_epicgames_unreal_GameActivity_fflHandleOnDialogResult`, the native
callback for one path, acting on the driver object; `path` is `none` for null. -/
def Java_com_epicgames_unreal_GameActivity_fflHandleOnDialogResult
    (Self : DialogManagerAndroid) (path : Option FString) : DialogManagerAndroid :=
  match path with
  | none => Self
  | some nativeString =>
    let ReturnStrings : List FString := [] ++ [nativeString]
    DialogManagerAndroid.HandleDialogResults Self ReturnStrings

/-- `Java_com_epicgames_unreal_GameActivity_fflHandleOnDialogResultMulti`, the native
callback for an array of paths, acting on the driver object; `paths` is `none` for a
null array, and a null element of the array is `none`. -/
def Java_com_epicgames_unreal_GameActivity_fflHandleOnDialogResultMulti
    (Self : DialogManagerAndroid) (paths : Option (List (Option FString))) :
    DialogManagerAndroid :=
  match paths with
  | none => Self
  | some Elements =>
    let ReturnStrings : List FString := Elements.foldl
      (fun ReturnStrings jPath =>
        match jPath with
        | some PathString => ReturnStrings ++ [PathString]
        | none => ReturnStrings)
      []
    DialogManagerAndroid.HandleDialogResults Self ReturnStrings

/-! ## Engine arrays -/

/-- `TArray::operator[]`: the element at `Index`, behind the range check. -/
def TArray.Index (A : List FString) (Index : Nat) : Outcome FString :=
  match A.get? Index with
  | some Element => .returned Element
  | none => .fatal

/-- `TArray::Insert(Items, InIndex)`: `Items` inserted before position `InIndex`,
behind the range check `0 <= InIndex <= Num()`. Outside that range the engine gives
the call no defined result; the call ends there. -/
def TArray.Insert (A Items : List FString) (InIndex : Int) : Outcome (List FString) :=
  if 0 ≤ InIndex ∧ InIndex ≤ A.length then
    .returned (A.take InIndex.toNat ++ Items ++ A.drop InIndex.toNat)
  else .fatal

/-! ## UFileSystemLibraryBPLibrary: the dialog entry points -/

/-- The body of the range-for loop of `OpenFolderMultiSelectDialog` for one
`Directory` of `ReturnValue`. -/
def UFileSystemLibraryBPLibrary.OpenFolderMultiSelectDialog.step
    (Directories : List FString) (Directory : FString) : List FString :=
  if FString.ne Directory (TEXT "") then
    let Directory :=
      if !FString.EndsWith Directory (TEXT "/") .IgnoreCase then Directory ++ TEXT "/"
      else Directory
    Directories ++ [Directory]
  else Directories

/-- `UFileSystemLibraryBPLibrary::OpenFolderMultiSelectDialog`. `DialogMan` is the
result of `FFileSystemLibraryModule::GetDialogManager()`, `none` for null. -/
def UFileSystemLibraryBPLibrary.OpenFolderMultiSelectDialog
    (DialogMan : Option DialogManager) (Directories : List FString)
    (DialogTitle DefaultPath : FString) : Bool × List FString :=
  match DialogMan with
  | some DialogMan =>
    let Call := DialogMan.OpenDirectoryDialog DialogTitle DefaultPath true []
    if Call.1 then
      let Directories := Call.2.foldl OpenFolderMultiSelectDialog.step Directories
      (decide (Directories.length > 0), Directories)
    else (false, Directories)
  | none => (false, Directories)

/-- `UFileSystemLibraryBPLibrary::OpenFileMultiSelectDialog`. The driver works on
the caller's `FilePaths`. -/
def UFileSystemLibraryBPLibrary.OpenFileMultiSelectDialog
    (DialogMan : Option DialogManager) (FilePaths : List FString)
    (DialogTitle DefaultPath : FString) (AllowMultiSelect : Bool) (FileTypes : FString) :
    Bool × List FString :=
  match DialogMan with
  | some DialogMan =>
    let Call := DialogMan.OpenFileDialog DialogTitle DefaultPath FileTypes AllowMultiSelect
      FilePaths
    if Call.1 then (decide (Call.2.length > 0), Call.2)
    else (false, Call.2)
  | none => (false, FilePaths)

/-- `UFileSystemLibraryBPLibrary::OpenSaveFileDialog`: the return value with
`SaveToPath` after the call. -/
def UFileSystemLibraryBPLibrary.OpenSaveFileDialog
    (DialogMan : Option DialogManager) (SaveToPath : FString)
    (DialogTitle DefaultPath DefaultFileName FileTypes : FString) : Bool × FString :=
  match DialogMan with
  | some DialogMan =>
    let Call := DialogMan.SaveFileDialog DialogTitle DefaultPath DefaultFileName FileTypes
      false []
    if Call.1 then
      if h : Call.2.length > 0 then
        if FString.ne (Call.2.get ⟨0, h⟩) (TEXT "") then (true, Call.2.get ⟨0, h⟩)
        else (false, SaveToPath)
      else (false, SaveToPath)
    else (false, SaveToPath)
  | none => (false, SaveToPath)

/-- `UFileSystemLibraryBPLibrary::OpenFolderSelectDialog`: the return value with
`FolderPath` after the call. -/
def UFileSystemLibraryBPLibrary.OpenFolderSelectDialog
    (DialogMan : Option DialogManager) (FolderPath : FString)
    (DialogTitle DefaultPath : FString) : Outcome (Bool × FString) :=
  let Directories : List FString := []
  let Call := OpenFolderMultiSelectDialog DialogMan Directories DialogTitle DefaultPath
  if Call.1 then
    match TArray.Index Call.2 0 with
    | .returned First => .returned (true, First)
    | .fatal => .fatal
  else .returned (false, FolderPath)

/-- `UFileSystemLibraryBPLibrary::OpenFileSelectDialog`: the return value with
`FilePath` after the call. -/
def UFileSystemLibraryBPLibrary.OpenFileSelectDialog
    (DialogMan : Option DialogManager) (FilePath : FString)
    (DialogTitle DefaultPath FileTypes : FString) : Outcome (Bool × FString) :=
  let FilePaths : List FString := []
  let Call := OpenFileMultiSelectDialog DialogMan FilePaths DialogTitle DefaultPath false
    FileTypes
  if Call.1 then
    match TArray.Index Call.2 0 with
    | .returned First => .returned (true, First)
    | .fatal => .fatal
  else .returned (false, FilePath)

/-- `UFileSystemLibraryBPLibrary::OpenSaveFileDialog` with the range check of
`ReturnValue[0]` spelled out: the test `ReturnValue.Num() > 0 && ReturnValue[0] != ""`
reads element 0 only when its left operand holds. -/
def UFileSystemLibraryBPLibrary.OpenSaveFileDialog.checked
    (DialogMan : Option DialogManager) (SaveToPath : FString)
    (DialogTitle DefaultPath DefaultFileName FileTypes : FString) : Outcome (Bool × FString) :=
  match DialogMan with
  | some DialogMan =>
    let Call := DialogMan.SaveFileDialog DialogTitle DefaultPath DefaultFileName FileTypes
      false []
    if Call.1 then
      if Call.2.length > 0 then
        match TArray.Index Call.2 0 with
        | .returned First =>
          if FString.ne First (TEXT "") then
            match TArray.Index Call.2 0 with
            | .returned Path => .returned (true, Path)
            | .fatal => .fatal
          else .returned (false, SaveToPath)
        | .fatal => .fatal
      else .returned (false, SaveToPath)
    else .returned (false, SaveToPath)
  | none => .returned (false, SaveToPath)

/-! ## The engine's file layer -/

/-- `FFileStatData`; a time is its number of ticks. -/
structure FFileStatData where
  /-- `CreationTime`. -/
  CreationTime : Int
  /-- `AccessTime`. -/
  AccessTime : Int
  /-- `ModificationTime`. -/
  ModificationTime : Int
  /-- `int64 FileSize`. -/
  FileSize : Int
  /-- `bIsDirectory`. -/
  bIsDirectory : Bool
  /-- `bIsReadOnly`. -/
  bIsReadOnly : Bool
  deriving DecidableEq, Repr

/-- The engine's file calls the library makes (`IPlatformFile`, `FFileHelper`), over
the states `σ` of the file system. A call that can change the file system gives its
return value with the state after it. -/
structure FileLayer (σ : Type) where
  /-- `IPlatformFile::FileExists`. -/
  FileExists : σ → FString → Bool
  /-- `IPlatformFile::DirectoryExists`. -/
  DirectoryExists : σ → FString → Bool
  /-- `IPlatformFile::CreateDirectoryTree(Directory)`. -/
  CreateDirectoryTree : σ → FString → Bool × σ
  /-- `IPlatformFile::DeleteDirectoryRecursively(Directory)`. -/
  DeleteDirectoryRecursively : σ → FString → Bool × σ
  /-- `IPlatformFile::CopyDirectoryTree(DestinationDirectory, Source, bOverwriteAllExisting)`. -/
  CopyDirectoryTree : σ → FString → FString → Bool → Bool × σ
  /-- `IPlatformFile::GetStatData`. -/
  GetStatData : σ → FString → FFileStatData
  /-- `FFileHelper::LoadFileToStringArray(Result, Filename)`: the return value and
  `Result` after the call. -/
  LoadFileToStringArray : σ → FString → Bool × List FString
  /-- `FFileHelper::SaveStringArrayToFile(Lines, Filename, AutoDetect, &FileManager, 0)`. -/
  SaveStringArrayToFile : σ → List FString → FString → Bool × σ

/-- The conversion of an `int64` to `int`: the value modulo `2^32`, in the range of
a 32-bit `int`. -/
def ToInt32 (Value : Int) : Int := (Value + 2147483648) % 4294967296 - 2147483648

/-- The struct `FPathProperties`; a date is its number of ticks. -/
structure FPathProperties where
  /-- `CreationDate`. -/
  CreationDate : Int
  /-- `AccessDate`. -/
  AccessDate : Int
  /-- `ModificationDate`. -/
  ModificationDate : Int
  /-- `int FileSizeBytes`. -/
  FileSizeBytes : Int
  /-- `isDirectory`. -/
  isDirectory : Bool
  /-- `isReadOnly`. -/
  isReadOnly : Bool
  deriving DecidableEq, Repr

/-- The default constructor `FPathProperties()`; `FDateTime::MinValue()` is tick 0. -/
def FPathProperties.Default : FPathProperties :=
  { CreationDate := 0, AccessDate := 0, ModificationDate := 0, FileSizeBytes := 0,
    isDirectory := false, isReadOnly := false }

/-- The constructor `FPathProperties(inCreationDate, inAccessDate, inModificationDate,
inFileSizeBytes, inIsDirectory, inIsReadOnly)`, with `int(inFileSizeBytes)`. -/
def FPathProperties.Make (inCreationDate inAccessDate inModificationDate : Int)
    (inFileSizeBytes : Int) (inIsDirectory inIsReadOnly : Bool) : FPathProperties :=
  { CreationDate := inCreationDate, AccessDate := inAccessDate,
    ModificationDate := inModificationDate, FileSizeBytes := ToInt32 inFileSizeBytes,
    isDirectory := inIsDirectory, isReadOnly := inIsReadOnly }

/-! ## UFileSystemLibraryBPLibrary: files and directories -/

/-- `UFileSystemLibraryBPLibrary::VerifyFile`. -/
def UFileSystemLibraryBPLibrary.VerifyFile {σ : Type} (Files : FileLayer σ) (S : σ)
    (PathToFile : FString) : Bool :=
  if Files.FileExists S PathToFile then true else false

/-- `UFileSystemLibraryBPLibrary::VerifyDirectory`. -/
def UFileSystemLibraryBPLibrary.VerifyDirectory {σ : Type} (Files : FileLayer σ) (S : σ)
    (PathToDirectory : FString) : Bool :=
  if !Files.DirectoryExists S PathToDirectory then false else true

/-- `UFileSystemLibraryBPLibrary::VerifyAndCreateDirectory`. -/
def UFileSystemLibraryBPLibrary.VerifyAndCreateDirectory {σ : Type} (Files : FileLayer σ)
    (S : σ) (PathToDirectory : FString) (CreateDirectory : Bool) : Bool × σ :=
  -- Does the directory exist?
  if !Files.DirectoryExists S PathToDirectory then
    if CreateDirectory then
      -- If not create directory
      let Created := Files.CreateDirectoryTree S PathToDirectory
      -- Check that the directory has been created
      if Files.DirectoryExists Created.2 PathToDirectory then (true, Created.2)
      else (false, Created.2)
    else (false, S)
  else (true, S)

/-- `UFileSystemLibraryBPLibrary::DeleteDirectory`. -/
def UFileSystemLibraryBPLibrary.DeleteDirectory {σ : Type} (Files : FileLayer σ) (S : σ)
    (PathToDirectory : FString) : Bool × σ :=
  -- Does the directory exist?
  if Files.DirectoryExists S PathToDirectory then
    -- If it does exist, delete it
    let Deleted := Files.DeleteDirectoryRecursively S PathToDirectory
    if Deleted.1 then (true, Deleted.2) else (false, Deleted.2)
  else (false, S)

/-- `UFileSystemLibraryBPLibrary::CopyDirectory`. -/
def UFileSystemLibraryBPLibrary.CopyDirectory {σ : Type} (Files : FileLayer σ) (S : σ)
    (PathToDirectory NewPathToDirectory : FString) (AllowOvewrite : Bool) : Bool × σ :=
  -- Does the directory exist?
  if Files.DirectoryExists S PathToDirectory then
    let Verified := VerifyAndCreateDirectory Files S NewPathToDirectory true
    if Verified.1 then
      -- If it does exist, copy to directory tree
      let Copied := Files.CopyDirectoryTree Verified.2 NewPathToDirectory PathToDirectory
        AllowOvewrite
      if Copied.1 then (true, Copied.2) else (false, Copied.2)
    else (false, Verified.2)
  else (false, S)

/-- `UFileSystemLibraryBPLibrary::MoveDirectory`. -/
def UFileSystemLibraryBPLibrary.MoveDirectory {σ : Type} (Files : FileLayer σ) (S : σ)
    (PathToDirectory NewPathToDirectory : FString) (AllowOvewrite : Bool) : Bool × σ :=
  let Copied := CopyDirectory Files S PathToDirectory NewPathToDirectory AllowOvewrite
  if Copied.1 then
    let Deleted := DeleteDirectory Files Copied.2 PathToDirectory
    if Deleted.1 then (true, Deleted.2) else (false, Deleted.2)
  else (false, Copied.2)

/-- `UFileSystemLibraryBPLibrary::GetFileOrDirectoryProperties`: the return value
with `Properties` after the call. -/
def UFileSystemLibraryBPLibrary.GetFileOrDirectoryProperties {σ : Type}
    (Files : FileLayer σ) (S : σ) (Properties : FPathProperties) (Path : FString) :
    Bool × FPathProperties :=
  -- Get directory properties
  if VerifyDirectory Files S Path then
    let StatData := Files.GetStatData S Path
    (true, FPathProperties.Make StatData.CreationTime StatData.AccessTime
      StatData.ModificationTime StatData.FileSize StatData.bIsDirectory StatData.bIsReadOnly)
  -- If not a directory, check file properties
  else if VerifyFile Files S Path then
    let StatData := Files.GetStatData S Path
    (true, FPathProperties.Make StatData.CreationTime StatData.AccessTime
      StatData.ModificationTime StatData.FileSize StatData.bIsDirectory StatData.bIsReadOnly)
  else (false, Properties)

/-- `UFileSystemLibraryBPLibrary::GetFileOrDirectorySize`: the return value with
`FileSizeBytes` after the call. -/
def UFileSystemLibraryBPLibrary.GetFileOrDirectorySize {σ : Type} (Files : FileLayer σ)
    (S : σ) (FileSizeBytes : Int) (Path : FString) : Bool × Int :=
  let Call := GetFileOrDirectoryProperties Files S FPathProperties.Default Path
  if Call.1 then (true, ToInt32 Call.2.FileSizeBytes) else (false, FileSizeBytes)

/-- `UFileSystemLibraryBPLibrary::LoadTextFileToStringArray`: the return value with
`FileContent` after the call. -/
def UFileSystemLibraryBPLibrary.LoadTextFileToStringArray {σ : Type} (Files : FileLayer σ)
    (S : σ) (FileContent : List FString) (PathToFile : FString) : Bool × List FString :=
  -- Does the file exist?
  if VerifyFile Files S PathToFile then
    let ReturnFileContent := (Files.LoadFileToStringArray S PathToFile).2
    if ReturnFileContent.length > 0 then (true, ReturnFileContent)
    else (false, FileContent)
  else (false, FileContent)

/-- `UFileSystemLibraryBPLibrary::LoadTextFileToString`: the return value with
`FileContent` after the call. -/
def UFileSystemLibraryBPLibrary.LoadTextFileToString {σ : Type} (Files : FileLayer σ)
    (S : σ) (FileContent : FString) (PathToFile : FString) : Bool × FString :=
  -- Does the file exist?
  if VerifyFile Files S PathToFile then
    let ReturnFileContent := (Files.LoadFileToStringArray S PathToFile).2
    if ReturnFileContent.length > 0 then
      let ReturnString : FString := ReturnFileContent.foldl
        (fun _ReturnString Line => Line ++ ['\n'])
        []
      (true, ReturnString)
    else (false, FileContent)
  else (false, FileContent)

/-- `UFileSystemLibraryBPLibrary::SaveStringArrayToFile`: the return value with the
file system after the call. -/
def UFileSystemLibraryBPLibrary.SaveStringArrayToFile {σ : Type} (Files : FileLayer σ)
    (S : σ) (PathToFile : FString) (FileContent : List FString) : Bool × σ :=
  let ReturnFileContent : List FString := []
  let Written := Files.SaveStringArrayToFile S FileContent PathToFile
  if ReturnFileContent.length > 0 then (true, Written.2) else (false, Written.2)

/-- `UFileSystemLibraryBPLibrary::InsertStringArrayToFile`. -/
def UFileSystemLibraryBPLibrary.InsertStringArrayToFile {σ : Type} (Files : FileLayer σ)
    (S : σ) (PathToFile : FString) (FileContent : List FString) (InsertAtIndex : Int) :
    Outcome (Bool × σ) :=
  let Loaded := LoadTextFileToStringArray Files S [] PathToFile
  if Loaded.1 then
    match TArray.Insert Loaded.2 FileContent InsertAtIndex with
    | .returned ReturnFileContent =>
      let Saved := SaveStringArrayToFile Files S PathToFile ReturnFileContent
      if Saved.1 then .returned (true, Saved.2) else .returned (false, Saved.2)
    | .fatal => .fatal
  else .returned (false, S)

/-- `UFileSystemLibraryBPLibrary::AppendStringArrayToFile`. -/
def UFileSystemLibraryBPLibrary.AppendStringArrayToFile {σ : Type} (Files : FileLayer σ)
    (S : σ) (PathToFile : FString) (FileContent : List FString)
    (AppendFileToStringArray : Bool) : Bool × σ :=
  let Loaded := LoadTextFileToStringArray Files S [] PathToFile
  if Loaded.1 then
    let ReturnFileContent :=
      if AppendFileToStringArray then FileContent ++ Loaded.2
      else Loaded.2 ++ FileContent
    let Saved := SaveStringArrayToFile Files S PathToFile ReturnFileContent
    if Saved.1 then (true, Saved.2) else (false, Saved.2)
  else (false, S)

/-! ## The specification's vocabulary -/

/-- The tokens of a filter spec: its pieces between `|`, the empty ones dropped. -/
def pipeTokens (FileTypes : FString) : List FString :=
  (FileTypes.splitOn '|').filter (· ≠ [])

/-- The tokens of a filter spec that contain the substring `*.`. -/
def patternTokens (FileTypes : FString) : List FString :=
  (pipeTokens FileTypes).filter (fun Token => ['*', '.'] <:+: Token)

/-- A trailing separator is appended to a directory path that lacks one. -/
def withTrailingSeparator (Path : FString) : FString :=
  if Path.getLast? = some '/' then Path else Path ++ ['/']

/-- The path ends in exactly one separator: its last character is `/` and the
character before it, if any, is not. -/
def EndsInExactlyOneSeparator (Path : FString) : Prop :=
  Path.getLast? = some '/' ∧ Path.dropLast.getLast? ≠ some '/'

instance (Path : FString) : Decidable (EndsInExactlyOneSeparator Path) := by
  unfold EndsInExactlyOneSeparator; infer_instance

/-- The directories a successful driver call contributes: its non-empty paths, in
their order, each with a trailing separator; nothing when the call fails. -/
def normalisedDirectories (Call : Bool × List FString) : List FString :=
  if Call.1 then (Call.2.filter (· ≠ [])).map withTrailingSeparator else []

/-- A native picker that reports success with the raw path `/home//`. -/
def doubledSeparatorPicker : IDesktopPlatform where
  OpenFileDialog := fun _ _ _ _ _ _ => (false, [])
  SaveFileDialog := fun _ _ _ _ _ _ => (false, [])
  OpenDirectoryDialog := fun _ _ _ => (true, TEXT "/home//")

/-- A driver whose directory dialog reports success with the single path `/home//`. -/
def doubledSeparatorDriver : DialogManager where
  OpenFileDialog := fun _ _ _ _ Out => (false, Out)
  SaveFileDialog := fun _ _ _ _ _ Out => (false, Out)
  OpenDirectoryDialog := fun _ _ _ Out => (true, Out ++ [TEXT "/home//"])

/-- A driver whose directory dialog reports success with the paths `/a` and `/b//`. -/
def mixedSeparatorDriver : DialogManager where
  OpenFileDialog := fun _ _ _ _ Out => (false, Out)
  SaveFileDialog := fun _ _ _ _ _ Out => (false, Out)
  OpenDirectoryDialog := fun _ _ _ Out => (true, Out ++ [TEXT "/a", TEXT "/b//"])

/-- The filter spec of the wire format for a list of (label, extension) pairs:
`<Label 1> (*.<ext1>)|*.<ext1>|<Label 2> (*.<ext2>)|*.<ext2>|...`. -/
def wireFormat (Pairs : List (FString × FString)) : FString :=
  List.intercalate ['|']
    (Pairs.flatMap fun P => [P.1 ++ TEXT " (*." ++ P.2 ++ TEXT ")", TEXT "*." ++ P.2])

/-- Modelled from the spec: the one-shot read of the pending results. The class
has no accessor for `bRecievedResults` and `Results`; the read gives both as they
are and leaves the object as `ResetResults` does. -/
def DialogManagerAndroid.ConsumeResults (Self : DialogManagerAndroid) :
    (Bool × List FString) × DialogManagerAndroid :=
  ((Self.bRecievedResults, Self.Results), DialogManagerAndroid.ResetResults Self)

/-- An Android platform without a Java environment. -/
def noEnvPlatform : AndroidPlatform where
  PLATFORM_ANDROID := true
  JavaEnv := none
  FindMethod := fun _ _ => some 7

/-- An Android platform with a Java environment on which every method is found. -/
def readyPlatform : AndroidPlatform where
  PLATFORM_ANDROID := true
  JavaEnv := some 1
  FindMethod := fun _ _ => some 7

/-- A native picker that reports success with the raw path `/home/user/docs`, and
with the single file `/home/user/a.txt`. -/
def docsPicker : IDesktopPlatform where
  OpenFileDialog := fun _ _ _ _ _ _ => (true, [TEXT "/home/user/a.txt"])
  SaveFileDialog := fun _ _ _ _ _ _ => (true, [TEXT "/home/user/a.txt"])
  OpenDirectoryDialog := fun _ _ _ => (true, TEXT "/home/user/docs")

/-- A driver that reports success and leaves the out-array as the caller passed
it, as `DialogManagerAndroid` does once its Java call is issued. -/
def optimisticDriver : DialogManager where
  OpenFileDialog := fun _ _ _ _ Out => (true, Out)
  SaveFileDialog := fun _ _ _ _ _ Out => (true, Out)
  OpenDirectoryDialog := fun _ _ _ Out => (true, Out)

/-- A driver that reports success with the single empty path. -/
def blankDriver : DialogManager where
  OpenFileDialog := fun _ _ _ _ _ => (true, [TEXT ""])
  SaveFileDialog := fun _ _ _ _ _ _ => (true, [TEXT ""])
  OpenDirectoryDialog := fun _ _ _ _ => (true, [TEXT ""])

/-- A driver that reports success with the paths `/a/b.txt` and `/a/c.txt`. -/
def twoFilesDriver : DialogManager where
  OpenFileDialog := fun _ _ _ _ _ => (true, [TEXT "/a/b.txt", TEXT "/a/c.txt"])
  SaveFileDialog := fun _ _ _ _ _ _ => (true, [TEXT "/a/b.txt", TEXT "/a/c.txt"])
  OpenDirectoryDialog := fun _ _ _ _ => (true, [TEXT "/a", TEXT "/b/"])

/-- A file layer over the log of its state-changing calls: the file `notes.txt`
holds `Lines` and has the size `FileSize`, the directories `src` and `dst` exist,
every call succeeds except that `CopyDirectoryTree` reports `CopyOk`. -/
def sampleFiles (Lines : List FString) (FileSize : Int) (CopyOk : Bool) :
    FileLayer (List FString) where
  FileExists := fun _ Path => decide (Path = TEXT "notes.txt")
  DirectoryExists := fun _ Path => decide (Path = TEXT "src") || decide (Path = TEXT "dst")
  CreateDirectoryTree := fun Log _ => (true, Log ++ [TEXT "CreateDirectoryTree"])
  DeleteDirectoryRecursively := fun Log _ => (true, Log ++ [TEXT "DeleteDirectoryRecursively"])
  CopyDirectoryTree := fun Log _ _ _ => (CopyOk, Log ++ [TEXT "CopyDirectoryTree"])
  GetStatData := fun _ _ => ⟨0, 0, 0, FileSize, false, false⟩
  LoadFileToStringArray := fun _ _ => (true, Lines)
  SaveStringArrayToFile := fun Log _ _ => (true, Log ++ [TEXT "SaveStringArrayToFile"])

open DialogManagerAndroid UFileSystemLibraryBPLibrary

/-! ## Engine strings: facts -/

theorem TChar.matches_ignoreCase_iff (C D : Char) (hD : D.toNat < 65) :
    TChar.Matches .IgnoreCase C D = true ↔ C = D := by
  constructor
  · intro h
    simp only [TChar.Matches, Bool.or_eq_true, Bool.and_eq_true, beq_iff_eq] at h
    rcases h with h | ⟨-, h⟩
    · exact h
    · have hn : C.toNat = D.toNat := by
        unfold LowerAscii at h
        split_ifs at h <;> omega
      calc C = Char.ofNat C.toNat := (Char.ofNat_toNat C).symm
        _ = Char.ofNat D.toNat := by rw [hn]
        _ = D := Char.ofNat_toNat D
  · rintro rfl
    simp [TChar.Matches]

theorem FString.ne_nil_iff (S : FString) : FString.ne S (TEXT "") = true ↔ S ≠ [] := by
  cases S <;> simp [FString.ne, FString.eq, FString.Equals]

theorem FString.endsWith_slash_iff (S : FString) :
    FString.EndsWith S (TEXT "/") .IgnoreCase = true ↔ S.getLast? = some '/' := by
  rcases List.eq_nil_or_concat S with rfl | ⟨Stem, C, rfl⟩
  · simp [FString.EndsWith]
  · have hm := TChar.matches_ignoreCase_iff C '/' (by decide)
    simp [FString.EndsWith, FString.Equals, hm]

theorem FString.matchesAt_star_dot_iff (S : FString) :
    FString.MatchesAt .IgnoreCase S (TEXT "*.") = true ↔ ['*', '.'] <+: S := by
  have h1 := fun C => TChar.matches_ignoreCase_iff C '*' (by decide)
  have h2 := fun C => TChar.matches_ignoreCase_iff C '.' (by decide)
  match S with
  | [] => simp [FString.MatchesAt]
  | [C] => simp [FString.MatchesAt, h1]
  | C :: D :: R =>
    simp only [TEXT, String.toList, FString.MatchesAt, h1, h2, Bool.and_true, Bool.and_eq_true,
      List.cons_prefix_cons, List.nil_prefix, and_true]
    constructor <;> rintro ⟨rfl, rfl⟩ <;> exact ⟨rfl, rfl⟩

theorem FString.contains_star_dot_iff (S : FString) :
    FString.Contains S (TEXT "*.") .IgnoreCase = true ↔ ['*', '.'] <:+: S := by
  unfold FString.Contains
  induction S with
  | nil => simp [FString.Find, FString.MatchesAt]
  | cons C S ih =>
    rw [List.infix_cons_iff, ← ih, ← FString.matchesAt_star_dot_iff]
    have hcons : FString.Find .IgnoreCase (TEXT "*.") (C :: S) =
        if FString.MatchesAt .IgnoreCase (C :: S) (TEXT "*.") then some 0
        else (FString.Find .IgnoreCase (TEXT "*.") S).map (· + 1) := rfl
    rw [hcons]
    split_ifs with h
    · simpa using Or.inl h
    · have hmap : ∀ o : Option Nat, (o.map (· + 1)).isSome = o.isSome := by
        intro o; cases o <;> rfl
      rw [hmap]
      exact ⟨Or.inr, fun h2 => h2.resolve_left h⟩

/-! ## The filter normaliser: facts -/

theorem ParseIntoArray.scan_pipe (S Tok : FString) :
    ParseIntoArray.scan (TEXT "|") true S 0 Tok =
      (List.splitOnP.go (· == '|') S Tok).filter (· ≠ []) := by
  induction S generalizing Tok with
  | nil =>
    cases Tok <;> simp [ParseIntoArray.scan, List.splitOnP.go]
  | cons C S ih =>
    have hm : FString.MatchesAt .CaseSensitive (C :: S) (TEXT "|") = (C == '|') := by
      simp [FString.MatchesAt, TChar.Matches]
    rw [ParseIntoArray.scan, hm, List.splitOnP.go]
    by_cases hC : C = '|'
    · subst hC
      have hlen : (TEXT "|").length - 1 = 0 := rfl
      rw [hlen, ih]
      cases Tok <;> simp
    · have hb : (C == '|') = false := by simpa using hC
      simp only [hb, Bool.false_eq_true, if_false]
      exact ih (C :: Tok)

theorem FString.parseIntoArray_pipe (S : FString) :
    FString.ParseIntoArray S (TEXT "|") true = pipeTokens S := by
  cases S with
  | nil => simp [FString.ParseIntoArray, pipeTokens, List.splitOn, List.splitOnP,
      List.splitOnP.go]
  | cons C S =>
    have h : FString.ParseIntoArray (C :: S) (TEXT "|") true =
        ParseIntoArray.scan (TEXT "|") true (C :: S) 0 [] := rfl
    rw [h, ParseIntoArray.scan_pipe]
    rfl

theorem foldl_add_if {α β : Type} (p : α → Bool) (f : α → β) (xs : List α) (init : List β) :
    xs.foldl (fun R T => if p T = true then R ++ [f T] else R) init
      = init ++ (xs.filter p).map f := by
  induction xs generalizing init with
  | nil => simp
  | cons x xs ih =>
    rw [List.foldl_cons, ih]
    by_cases hx : p x = true <;> simp [hx]

theorem ConvertFileTypesToMimeTypes_eq (FileTypes : FString) :
    ConvertFileTypesToMimeTypes FileTypes =
      if patternTokens FileTypes = [] then [TEXT "*/*"]
      else (patternTokens FileTypes).map GetMimeTypeFromFilePath := by
  have hfilter : (pipeTokens FileTypes).filter
      (fun Token => FString.Contains Token (TEXT "*.") .IgnoreCase) = patternTokens FileTypes := by
    unfold patternTokens
    apply List.filter_congr
    intro T _
    by_cases h : ['*', '.'] <:+: T
    · have h1 : FString.Contains T ['*', '.'] .IgnoreCase = true :=
        (FString.contains_star_dot_iff T).2 h
      simp [h, h1]
    · have h2 : FString.Contains T ['*', '.'] .IgnoreCase = false := by
        rw [← Bool.not_eq_true]
        exact fun hc => h ((FString.contains_star_dot_iff T).1 hc)
      simp [h, h2]
  unfold ConvertFileTypesToMimeTypes
  simp only [FString.parseIntoArray_pipe, foldl_add_if, List.nil_append, hfilter]
  by_cases h : patternTokens FileTypes = []
  · simp [h]
  · have hlen : ¬ (List.map GetMimeTypeFromFilePath (patternTokens FileTypes)).length = 0 := by
      simpa using h
    simp [h]

/-! ## The extension table: facts -/

theorem TMap.find_eq_none (M : TMap) (Key : FString)
    (h : ∀ KV ∈ M, FString.eq KV.1 Key = false) : TMap.Find M Key = none := by
  induction M with
  | nil => rfl
  | cons KV M ih =>
    obtain ⟨K, V⟩ := KV
    have hK : FString.eq K Key = false := h (K, V) (List.mem_cons_self _ _)
    simp only [TMap.Find, hK, Bool.false_eq_true, if_false]
    exact ih fun KV hKV => h KV (List.mem_cons_of_mem _ hKV)

theorem TMap.find_mem (M : TMap) (Key Value : FString) (h : TMap.Find M Key = some Value) :
    ∃ K, (K, Value) ∈ M := by
  induction M with
  | nil => simp [TMap.Find] at h
  | cons KV M ih =>
    obtain ⟨K, V⟩ := KV
    simp only [TMap.Find] at h
    split_ifs at h with hK
    · cases h
      exact ⟨K, List.mem_cons_self _ _⟩
    · obtain ⟨K2, hK2⟩ := ih h
      exact ⟨K2, List.mem_cons_of_mem _ hK2⟩

theorem TChar.matches_symm (C1 C2 : Char) (h : TChar.Matches .IgnoreCase C1 C2 = true) :
    TChar.Matches .IgnoreCase C2 C1 = true := by
  simp only [TChar.Matches, BothAscii, Bool.or_eq_true, Bool.and_eq_true, beq_iff_eq,
    decide_eq_true_eq] at h ⊢
  rcases h with h | ⟨⟨h1, h2⟩, h3⟩
  · exact Or.inl h.symm
  · exact Or.inr ⟨⟨h2, h1⟩, h3.symm⟩

theorem TChar.matches_trans (C1 C2 C3 : Char) (h12 : TChar.Matches .IgnoreCase C1 C2 = true)
    (h23 : TChar.Matches .IgnoreCase C2 C3 = true) :
    TChar.Matches .IgnoreCase C1 C3 = true := by
  simp only [TChar.Matches, BothAscii, Bool.or_eq_true, Bool.and_eq_true, beq_iff_eq,
    decide_eq_true_eq] at h12 h23 ⊢
  rcases h12 with h12 | ⟨⟨h1, h2⟩, h3⟩
  · subst h12
    exact h23
  · rcases h23 with h23 | ⟨⟨-, h5⟩, h6⟩
    · subst h23
      exact Or.inr ⟨⟨h1, h2⟩, h3⟩
    · exact Or.inr ⟨⟨h1, h5⟩, h3.trans h6⟩

theorem FString.eq_refl (A : FString) : FString.eq A A = true := by
  unfold FString.eq
  induction A with
  | nil => rfl
  | cons C A ih => simp [FString.Equals, TChar.Matches, ih]

theorem FString.eq_symm (A B : FString) (h : FString.eq A B = true) :
    FString.eq B A = true := by
  unfold FString.eq at h ⊢
  induction A generalizing B with
  | nil => cases B with
    | nil => rfl
    | cons D B => simp [FString.Equals] at h
  | cons C A ih => cases B with
    | nil => simp [FString.Equals] at h
    | cons D B =>
      simp only [FString.Equals, Bool.and_eq_true] at h ⊢
      exact ⟨TChar.matches_symm C D h.1, ih B h.2⟩

theorem FString.eq_trans (A B C : FString) (hAB : FString.eq A B = true)
    (hBC : FString.eq B C = true) : FString.eq A C = true := by
  unfold FString.eq at hAB hBC ⊢
  induction A generalizing B C with
  | nil => cases B with
    | nil => exact hBC
    | cons D B => simp [FString.Equals] at hAB
  | cons X A ih => cases B with
    | nil => simp [FString.Equals] at hAB
    | cons Y B => cases C with
      | nil => simp [FString.Equals] at hBC
      | cons Z C =>
        simp only [FString.Equals, Bool.and_eq_true] at hAB hBC ⊢
        exact ⟨TChar.matches_trans X Y Z hAB.1 hBC.1, ih B C hAB.2 hBC.2⟩

/-- `Find` does not tell apart two keys that `operator==` holds equal. -/
theorem TMap.find_congr (M : TMap) (Key1 Key2 : FString)
    (h : FString.eq Key1 Key2 = true) : TMap.Find M Key1 = TMap.Find M Key2 := by
  induction M with
  | nil => rfl
  | cons KV M ih =>
    obtain ⟨K, V⟩ := KV
    have hK : FString.eq K Key1 = FString.eq K Key2 := by
      rw [Bool.eq_iff_iff]
      exact ⟨fun h1 => FString.eq_trans K Key1 Key2 h1 h,
        fun h2 => FString.eq_trans K Key2 Key1 h2 (FString.eq_symm Key1 Key2 h)⟩
    simp only [TMap.Find, hK, ih]

theorem ExtensionMimeTypeMap_find_key :
    ∀ KV ∈ ExtensionMimeTypeMap, TMap.Find ExtensionMimeTypeMap KV.1 = some KV.2 := by
  decide

theorem ExtensionMimeTypeMap_values_ne_nil :
    ∀ KV ∈ ExtensionMimeTypeMap, KV.2 ≠ TEXT "" := by
  decide

theorem GetMimeTypeFromFilePath_eq (FilePath : FString) :
    GetMimeTypeFromFilePath FilePath =
      (TMap.Find ExtensionMimeTypeMap (FPaths.GetExtension FilePath true)).getD (TEXT "*/*") := by
  show (match TMap.Find ExtensionMimeTypeMap (FPaths.GetExtension FilePath true) with
    | some FoundMimeType => FoundMimeType
    | none => TEXT "*/*") = _
  cases TMap.Find ExtensionMimeTypeMap (FPaths.GetExtension FilePath true) <;> rfl

theorem GetMimeTypeFromFilePath_ne_nil (FilePath : FString) :
    GetMimeTypeFromFilePath FilePath ≠ TEXT "" := by
  rw [GetMimeTypeFromFilePath_eq]
  cases h : TMap.Find ExtensionMimeTypeMap (FPaths.GetExtension FilePath true) with
  | none => simp
  | some V =>
    obtain ⟨K, hK⟩ := TMap.find_mem _ _ _ h
    exact ExtensionMimeTypeMap_values_ne_nil (K, V) hK

/-- The lookup ignores ASCII case, as `operator==` on the keys does: the extension
`.PNG` finds the pair of the key `.png`. -/
theorem GetMimeTypeFromFilePath_ignores_case :
    TMap.Contains ExtensionMimeTypeMap (TEXT ".PNG") = true ∧
      GetMimeTypeFromFilePath (TEXT "PHOTO.PNG") = TEXT "image/png" := by
  decide

theorem patternTokens_subset (FileTypes Token : FString) (h : Token ∈ patternTokens FileTypes) :
    Token ∈ FileTypes.splitOn '|' ∧ TEXT "*." <:+: Token := by
  unfold patternTokens pipeTokens at h
  simp only [List.mem_filter, decide_eq_true_eq] at h
  exact ⟨h.1.1, h.2⟩

theorem wireFormat_tokens (Pairs : List (FString × FString))
    (hbar : ∀ P ∈ Pairs, '|' ∉ P.1 ∧ '|' ∉ P.2) :
    ∀ Token ∈ Pairs.flatMap (fun P => [P.1 ++ TEXT " (*." ++ P.2 ++ TEXT ")", TEXT "*." ++ P.2]),
      '|' ∉ Token ∧ Token ≠ [] ∧ TEXT "*." <:+: Token := by
  intro Token hT
  obtain ⟨P, hP, hTP⟩ := List.mem_flatMap.1 hT
  obtain ⟨h1, h2⟩ := hbar P hP
  simp only [List.mem_cons, List.mem_singleton, List.not_mem_nil, or_false] at hTP
  rcases hTP with rfl | rfl
  · refine ⟨by simp [h1, h2], by simp, ?_⟩
    exact ⟨P.1 ++ TEXT " (", P.2 ++ TEXT ")", by simp⟩
  · refine ⟨by simp [h2], by simp, ?_⟩
    exact ⟨[], P.2, by simp⟩

/-- For a well-formed filter spec of `N ≥ 1` label/pattern pairs, labels and
extensions free of `|`, `ConvertFileTypesToMimeTypes` returns `2 * N` entries:
every label `<Label> (*.<ext>)` contains `*.` and is converted like a pattern. -/
theorem convertFileTypes_wireFormat_length (Pairs : List (FString × FString))
    (hne : Pairs ≠ []) (hbar : ∀ P ∈ Pairs, '|' ∉ P.1 ∧ '|' ∉ P.2) :
    (ConvertFileTypesToMimeTypes (wireFormat Pairs)).length = 2 * Pairs.length := by
  have htok := wireFormat_tokens Pairs hbar
  generalize hL : Pairs.flatMap
    (fun P => [P.1 ++ TEXT " (*." ++ P.2 ++ TEXT ")", TEXT "*." ++ P.2]) = L at htok
  have hlen : L.length = 2 * Pairs.length := by
    rw [← hL]
    clear hL htok hbar hne
    induction Pairs with
    | nil => rfl
    | cons P Pairs ih =>
      rw [List.flatMap_cons, List.length_append, ih, List.length_cons, List.length_cons,
        List.length_cons, List.length_nil]
      omega
  have hLne : L ≠ [] := by
    intro h
    rw [h, List.length_nil] at hlen
    have := List.length_pos.2 hne
    omega
  have hsplit : (wireFormat Pairs).splitOn '|' = L := by
    unfold wireFormat
    rw [hL]
    exact List.splitOn_intercalate L '|' (fun l hl => (htok l hl).1) hLne
  have hpat : patternTokens (wireFormat Pairs) = L := by
    unfold patternTokens pipeTokens
    rw [hsplit, List.filter_filter, List.filter_eq_self]
    intro Token hT
    have h3 : ['*', '.'] <:+: Token := (htok Token hT).2.2
    simp [(htok Token hT).2.1, h3]
  rw [ConvertFileTypesToMimeTypes_eq, hpat, if_neg hLne, List.length_map, hlen]

/-! ## The filter normaliser: the claims -/

/-- C1: on the filter spec `Images (*.png)|*.png|Audio (*.wav)|*.wav`,
`ConvertFileTypesToMimeTypes` returns four entries, not the two MIME strings of the
scenario: the two labels contain `*.` as well, and each of them contributes the
wildcard `*/*`. -/
theorem convertFileTypes_scenario_labels_counted :
    ConvertFileTypesToMimeTypes (TEXT "Images (*.png)|*.png|Audio (*.wav)|*.wav") =
        [TEXT "*/*", TEXT "image/png", TEXT "*/*", TEXT "audio/wav, audio/x-wav"] ∧
      ConvertFileTypesToMimeTypes (TEXT "Images (*.png)|*.png|Audio (*.wav)|*.wav") ≠
        [TEXT "image/png", TEXT "audio/wav, audio/x-wav"] := by
  decide

/-- C2: on the well-formed filter spec of the single pair (`Images`, `png`), which
is `Images (*.png)|*.png`, `ConvertFileTypesToMimeTypes` returns two entries: the
length exceeds the number of pairs, and the result is not the single wildcard. -/
theorem convertFileTypes_wireFormat_one_pair :
    wireFormat [(TEXT "Images", TEXT "png")] = TEXT "Images (*.png)|*.png" ∧
      ConvertFileTypesToMimeTypes (wireFormat [(TEXT "Images", TEXT "png")]) =
        [TEXT "*/*", TEXT "image/png"] ∧
      ¬ (ConvertFileTypesToMimeTypes (wireFormat [(TEXT "Images", TEXT "png")])).length ≤ 1 ∧
      ConvertFileTypesToMimeTypes (wireFormat [(TEXT "Images", TEXT "png")]) ≠ [TEXT "*/*"] := by
  decide

/-- C3: when no `|`-separated token of the filter spec contains `*.`,
`ConvertFileTypesToMimeTypes` returns exactly `["*/*"]`. -/
theorem convertFileTypes_no_pattern_token (FileTypes : FString)
    (h : ∀ Token ∈ FileTypes.splitOn '|', ¬ TEXT "*." <:+: Token) :
    ConvertFileTypesToMimeTypes FileTypes = [TEXT "*/*"] := by
  have hnil : patternTokens FileTypes = [] := by
    rw [List.eq_nil_iff_forall_not_mem]
    intro Token hT
    exact h Token (patternTokens_subset _ _ hT).1 (patternTokens_subset _ _ hT).2
  rw [ConvertFileTypesToMimeTypes_eq, if_pos hnil]

/-- C3, at the empty filter spec and at `Foo|Bar`. -/
theorem convertFileTypes_no_pattern_token_witness :
    ConvertFileTypesToMimeTypes (TEXT "") = [TEXT "*/*"] ∧
      ConvertFileTypesToMimeTypes (TEXT "Foo|Bar") = [TEXT "*/*"] :=
  ⟨convertFileTypes_no_pattern_token (TEXT "") (by decide),
    convertFileTypes_no_pattern_token (TEXT "Foo|Bar") (by decide)⟩

/-- C4, as stated, fails: in `*.foo|*.bar` no token has an extension of the table,
and the result has two entries. -/
theorem convertFileTypes_unrecognised_two_entries :
    (∀ Token ∈ (TEXT "*.foo|*.bar").splitOn '|', TEXT "*." <:+: Token →
        ∀ KV ∈ ExtensionMimeTypeMap,
          FString.eq KV.1 (FPaths.GetExtension Token true) = false) ∧
      ConvertFileTypesToMimeTypes (TEXT "*.foo|*.bar") = [TEXT "*/*", TEXT "*/*"] ∧
      ConvertFileTypesToMimeTypes (TEXT "*.foo|*.bar") ≠ [TEXT "*/*"] := by
  decide

/-- C4, amended: when no `*.`-bearing token of the filter spec has an extension
that is a key of the table, every entry of the result is the wildcard `*/*`: one
entry per `*.`-bearing token, and a single entry when there is no such token. -/
theorem convertFileTypes_unrecognised_all_wildcards (FileTypes : FString)
    (h : ∀ Token ∈ FileTypes.splitOn '|', TEXT "*." <:+: Token →
      ∀ KV ∈ ExtensionMimeTypeMap,
        FString.eq KV.1 (FPaths.GetExtension Token true) = false) :
    ConvertFileTypesToMimeTypes FileTypes =
      List.replicate (max 1 (patternTokens FileTypes).length) (TEXT "*/*") := by
  rw [ConvertFileTypesToMimeTypes_eq]
  by_cases hnil : patternTokens FileTypes = []
  · rw [if_pos hnil, hnil]; rfl
  · rw [if_neg hnil]
    have hpos : 0 < (patternTokens FileTypes).length := List.length_pos.2 hnil
    rw [max_eq_right hpos, List.eq_replicate_iff]
    refine ⟨by simp, ?_⟩
    intro Mime hMime
    obtain ⟨Token, hT, rfl⟩ := List.mem_map.1 hMime
    rw [GetMimeTypeFromFilePath_eq,
      TMap.find_eq_none _ _
        (h Token (patternTokens_subset _ _ hT).1 (patternTokens_subset _ _ hT).2)]
    rfl

/-- C4, amended, at `Foo|*.foo|*.bar`. -/
theorem convertFileTypes_unrecognised_all_wildcards_witness :
    ConvertFileTypesToMimeTypes (TEXT "Foo|*.foo|*.bar") = [TEXT "*/*", TEXT "*/*"] :=
  convertFileTypes_unrecognised_all_wildcards (TEXT "Foo|*.foo|*.bar") (by decide)

/-- C5: `ConvertFileTypesToMimeTypes` splits the filter spec on `|` and drops the
empty tokens; when some token contains `*.`, the result is
`GetMimeTypeFromFilePath` of the `*.`-bearing tokens in their order, one entry per
such token. -/
theorem convertFileTypes_maps_pattern_tokens (FileTypes : FString)
    (h : patternTokens FileTypes ≠ []) :
    FString.ParseIntoArray FileTypes (TEXT "|") true
        = (FileTypes.splitOn '|').filter (· ≠ []) ∧
      ConvertFileTypesToMimeTypes FileTypes
        = (((FileTypes.splitOn '|').filter (· ≠ [])).filter (TEXT "*." <:+: ·)).map
            GetMimeTypeFromFilePath ∧
      (ConvertFileTypesToMimeTypes FileTypes).length = (patternTokens FileTypes).length := by
  have hc := ConvertFileTypesToMimeTypes_eq FileTypes
  rw [if_neg h] at hc
  refine ⟨FString.parseIntoArray_pipe FileTypes, hc, ?_⟩
  rw [hc, List.length_map]

/-- C5, at `Wave (* .wav)|*.wav||Notes|*.txt`. -/
theorem convertFileTypes_maps_pattern_tokens_witness :
    patternTokens (TEXT "Wave (* .wav)|*.wav||Notes|*.txt") = [TEXT "*.wav", TEXT "*.txt"] ∧
      ConvertFileTypesToMimeTypes (TEXT "Wave (* .wav)|*.wav||Notes|*.txt") =
        [TEXT "audio/wav, audio/x-wav", TEXT "text/plain"] := by
  refine ⟨by decide, ?_⟩
  rw [(convertFileTypes_maps_pattern_tokens (TEXT "Wave (* .wav)|*.wav||Notes|*.txt")
    (by decide)).2.1]
  decide

/-- C6: when no key of the extension table equals the extension of the path (the
keys of a `TMap<FString, FString>` are compared with `operator==`),
`GetMimeTypeFromFilePath` returns `*/*`; the function is total. -/
theorem getMimeType_unknown_extension (FilePath : FString)
    (h : ∀ KV ∈ ExtensionMimeTypeMap,
      FString.eq KV.1 (FPaths.GetExtension FilePath true) = false) :
    GetMimeTypeFromFilePath FilePath = TEXT "*/*" := by
  rw [GetMimeTypeFromFilePath_eq, TMap.find_eq_none _ _ h]
  rfl

/-- C6, at a path with an unknown extension, at one without a dot in its file
name, and at the empty path. -/
theorem getMimeType_unknown_extension_witness :
    FPaths.GetExtension (TEXT "Saved/notes.v2/readme.md") true = TEXT ".md" ∧
      GetMimeTypeFromFilePath (TEXT "Saved/notes.v2/readme.md") = TEXT "*/*" ∧
      FPaths.GetExtension (TEXT "Saved/notes.v2/readme") true = TEXT "" ∧
      GetMimeTypeFromFilePath (TEXT "Saved/notes.v2/readme") = TEXT "*/*" ∧
      GetMimeTypeFromFilePath (TEXT "") = TEXT "*/*" :=
  ⟨by decide, getMimeType_unknown_extension (TEXT "Saved/notes.v2/readme.md") (by decide),
    by decide, getMimeType_unknown_extension (TEXT "Saved/notes.v2/readme") (by decide),
    getMimeType_unknown_extension (TEXT "") (by decide)⟩

/-- C7: a path whose extension is present in the table, which is to say equal to a
key as the table compares keys (`operator==`, so `.PNG` is present through the key
`.png`), gets the MIME string the table holds for that key; this covers the
extension spelled exactly like the key. Two paths whose extensions the table holds
equal, and so two paths with the same extension, get the same MIME string. `.png`
gives `image/png` and `.wav` gives `audio/wav, audio/x-wav`. -/
theorem getMimeType_of_table_extension :
    (∀ KV ∈ ExtensionMimeTypeMap, ∀ FilePath : FString,
        FString.eq KV.1 (FPaths.GetExtension FilePath true) = true →
        GetMimeTypeFromFilePath FilePath = KV.2) ∧
      (∀ FilePath : FString,
        TMap.Contains ExtensionMimeTypeMap (FPaths.GetExtension FilePath true) = true →
        ∃ KV ∈ ExtensionMimeTypeMap,
          FString.eq KV.1 (FPaths.GetExtension FilePath true) = true ∧
            GetMimeTypeFromFilePath FilePath = KV.2) ∧
      (∀ KV ∈ ExtensionMimeTypeMap, ∀ FilePath : FString,
        FPaths.GetExtension FilePath true = KV.1 → GetMimeTypeFromFilePath FilePath = KV.2) ∧
      (∀ P Q : FString,
        FString.eq (FPaths.GetExtension P true) (FPaths.GetExtension Q true) = true →
        GetMimeTypeFromFilePath P = GetMimeTypeFromFilePath Q) ∧
      (∀ P Q : FString, FPaths.GetExtension P true = FPaths.GetExtension Q true →
        GetMimeTypeFromFilePath P = GetMimeTypeFromFilePath Q) ∧
      (TEXT ".png", TEXT "image/png") ∈ ExtensionMimeTypeMap ∧
      (TEXT ".wav", TEXT "audio/wav, audio/x-wav") ∈ ExtensionMimeTypeMap ∧
      GetMimeTypeFromFilePath (TEXT "/sdcard/Pictures/photo.png") = TEXT "image/png" ∧
      GetMimeTypeFromFilePath (TEXT "take.1.wav") = TEXT "audio/wav, audio/x-wav" ∧
      GetMimeTypeFromFilePath (TEXT "/sdcard/Pictures/PHOTO.PNG") = TEXT "image/png" ∧
      GetMimeTypeFromFilePath (TEXT "Take.Wav") = TEXT "audio/wav, audio/x-wav" := by
  have hkey : ∀ KV ∈ ExtensionMimeTypeMap, ∀ FilePath : FString,
      FString.eq KV.1 (FPaths.GetExtension FilePath true) = true →
      GetMimeTypeFromFilePath FilePath = KV.2 := by
    intro KV hKV FilePath hExt
    rw [GetMimeTypeFromFilePath_eq, ← TMap.find_congr _ _ _ hExt,
      ExtensionMimeTypeMap_find_key KV hKV]
    rfl
  refine ⟨hkey, ?_, ?_, ?_, ?_, by decide, by decide, by decide, by decide, by decide,
    by decide⟩
  · intro FilePath hIn
    unfold TMap.Contains at hIn
    obtain ⟨KV, hKV, hEq⟩ := List.any_eq_true.1 hIn
    exact ⟨KV, hKV, hEq, hkey KV hKV FilePath hEq⟩
  · intro KV hKV FilePath hExt
    exact hkey KV hKV FilePath (by rw [hExt]; exact FString.eq_refl KV.1)
  · intro P Q hPQ
    rw [GetMimeTypeFromFilePath_eq, GetMimeTypeFromFilePath_eq, TMap.find_congr _ _ _ hPQ]
  · intro P Q hPQ
    rw [GetMimeTypeFromFilePath_eq, GetMimeTypeFromFilePath_eq, hPQ]

/-- C10: the sequence `ConvertFileTypesToMimeTypes` returns is never empty and
holds no empty string. -/
theorem convertFileTypes_nonempty_entries (FileTypes : FString) :
    ConvertFileTypesToMimeTypes FileTypes ≠ [] ∧
      ∀ Mime ∈ ConvertFileTypesToMimeTypes FileTypes, Mime ≠ TEXT "" := by
  rw [ConvertFileTypesToMimeTypes_eq]
  by_cases hnil : patternTokens FileTypes = []
  · rw [if_pos hnil]
    exact ⟨by simp, by decide⟩
  · rw [if_neg hnil]
    refine ⟨by simpa using hnil, ?_⟩
    intro Mime hMime
    obtain ⟨Token, -, rfl⟩ := List.mem_map.1 hMime
    exact GetMimeTypeFromFilePath_ne_nil Token

/-! ## Directory results: facts -/

theorem appendSeparator_eq (Path : FString) :
    (if !FString.EndsWith Path (TEXT "/") .IgnoreCase then Path ++ TEXT "/" else Path)
      = withTrailingSeparator Path := by
  unfold withTrailingSeparator
  by_cases h : Path.getLast? = some '/'
  · rw [if_pos h, (FString.endsWith_slash_iff Path).2 h]; rfl
  · have h2 : FString.EndsWith Path (TEXT "/") .IgnoreCase = false := by
      rw [← Bool.not_eq_true]
      exact fun hc => h ((FString.endsWith_slash_iff Path).1 hc)
    rw [if_neg h, h2]; rfl

theorem openFolderStep_eq (Directories : List FString) (Directory : FString) :
    OpenFolderMultiSelectDialog.step Directories Directory =
      if Directory = [] then Directories
      else Directories ++ [withTrailingSeparator Directory] := by
  unfold OpenFolderMultiSelectDialog.step
  by_cases h : Directory = []
  · have h2 : FString.ne Directory (TEXT "") = false := by
      rw [← Bool.not_eq_true, FString.ne_nil_iff]; exact fun hc => hc h
    rw [if_pos h, h2]; rfl
  · rw [if_neg h, (FString.ne_nil_iff Directory).2 h, if_pos rfl]
    exact congrArg (fun P => Directories ++ [P]) (appendSeparator_eq Directory)

theorem openFolderLoop_eq (ReturnValue Directories : List FString) :
    ReturnValue.foldl OpenFolderMultiSelectDialog.step Directories =
      Directories ++ (ReturnValue.filter (· ≠ [])).map withTrailingSeparator := by
  induction ReturnValue generalizing Directories with
  | nil => simp
  | cons Directory ReturnValue ih =>
    rw [List.foldl_cons, ih, openFolderStep_eq]
    by_cases h : Directory = [] <;> simp [h]

theorem openFolder_snd (DialogMan : DialogManager)
    (Directories : List FString) (DialogTitle DefaultPath : FString) :
    (OpenFolderMultiSelectDialog (some DialogMan) Directories DialogTitle DefaultPath).2 =
      Directories ++
        normalisedDirectories (DialogMan.OpenDirectoryDialog DialogTitle DefaultPath true []) := by
  unfold OpenFolderMultiSelectDialog normalisedDirectories
  by_cases h : (DialogMan.OpenDirectoryDialog DialogTitle DefaultPath true []).1 = true
  · simp only [h, if_true]
    exact openFolderLoop_eq _ _
  · simp [h]

theorem withTrailingSeparator_getLast (Path : FString) :
    (withTrailingSeparator Path).getLast? = some '/' := by
  unfold withTrailingSeparator
  by_cases h : Path.getLast? = some '/'
  · rw [if_pos h]; exact h
  · rw [if_neg h]; exact List.getLast?_concat Path

theorem withTrailingSeparator_idem (Path : FString) :
    withTrailingSeparator (withTrailingSeparator Path) = withTrailingSeparator Path := by
  have h := withTrailingSeparator_getLast Path
  generalize withTrailingSeparator Path = Q at h
  unfold withTrailingSeparator
  rw [if_pos h]

theorem withTrailingSeparator_ne_nil (Path : FString) : withTrailingSeparator Path ≠ [] := by
  intro h
  have h2 := withTrailingSeparator_getLast Path
  rw [h] at h2
  simp at h2

theorem withTrailingSeparator_exactlyOne (Path : FString) (h : ¬ TEXT "//" <:+ Path) :
    EndsInExactlyOneSeparator (withTrailingSeparator Path) := by
  refine ⟨withTrailingSeparator_getLast Path, ?_⟩
  unfold withTrailingSeparator
  by_cases hl : Path.getLast? = some '/'
  · rw [if_pos hl]
    obtain ⟨Stem, rfl⟩ := List.getLast?_eq_some_iff.1 hl
    rw [List.dropLast_concat]
    intro hs
    obtain ⟨Stem2, rfl⟩ := List.getLast?_eq_some_iff.1 hs
    exact h ⟨Stem2, by simp⟩
  · rw [if_neg hl, List.dropLast_concat]
    exact hl

theorem withTrailingSeparator_of_slash (Path : FString) (h : Path.getLast? = some '/') :
    withTrailingSeparator Path = Path := by
  unfold withTrailingSeparator
  rw [if_pos h]

/-! ## Directory results: the claims -/

/-- C8: the paths `OpenFolderMultiSelectDialog` adds to `Directories` are the
driver's non-empty paths in their order, each with `/` appended unless it already
ends with `/` (and none when the driver reports failure); every added path is
non-empty, ends with `/`, and is left unchanged by the normalisation. -/
theorem openFolderMultiSelect_adds_normalised (DialogMan : DialogManager)
    (Directories : List FString) (DialogTitle DefaultPath : FString) :
    ∃ Added : List FString,
      (OpenFolderMultiSelectDialog (some DialogMan) Directories DialogTitle DefaultPath).2 =
        Directories ++ Added ∧
      Added =
        (if (DialogMan.OpenDirectoryDialog DialogTitle DefaultPath true []).1 then
          ((DialogMan.OpenDirectoryDialog DialogTitle DefaultPath true []).2.filter
            (· ≠ TEXT "")).map
            (fun Path => if Path.getLast? = some '/' then Path else Path ++ TEXT "/")
        else []) ∧
      ∀ Path ∈ Added,
        Path ≠ TEXT "" ∧ Path.getLast? = some '/' ∧
          (if !FString.EndsWith Path (TEXT "/") .IgnoreCase then Path ++ TEXT "/" else Path)
            = Path ∧
          OpenFolderMultiSelectDialog.step [] Path = [Path] := by
  refine ⟨_, openFolder_snd DialogMan Directories DialogTitle DefaultPath,
    rfl, ?_⟩
  intro Path hPath
  unfold normalisedDirectories at hPath
  split_ifs at hPath with hok
  · obtain ⟨Raw, -, rfl⟩ := List.mem_map.1 hPath
    refine ⟨withTrailingSeparator_ne_nil Raw, withTrailingSeparator_getLast Raw, ?_, ?_⟩
    · rw [appendSeparator_eq, withTrailingSeparator_idem]
    · rw [openFolderStep_eq, if_neg (withTrailingSeparator_ne_nil Raw),
        withTrailingSeparator_idem, List.nil_append]
  · simp at hPath

/-- C9, as stated, fails: when the native picker, or the driver, reports the path
`/home//`, the Linux driver and `OpenFolderMultiSelectDialog` return `/home//`,
which ends in two separators. -/
theorem openDirectory_keeps_doubled_separator :
    DialogManagerLinux.OpenDirectoryDialog ⟨some doubledSeparatorPicker, some 1⟩
        (TEXT "Pick") (TEXT "") false [] = (true, [TEXT "/home//"]) ∧
      OpenFolderMultiSelectDialog (some doubledSeparatorDriver) [] (TEXT "Pick") (TEXT "")
        = (true, [TEXT "/home//"]) ∧
      ¬ EndsInExactlyOneSeparator (TEXT "/home//") := by
  decide

/-- C9, amended: every directory path returned by the open-directory operation ends
with `/`; it ends in exactly one separator whenever the raw path it comes from does
not end in `//`, and it is that raw path unchanged when the raw path already ends
with `/`. The Linux driver returns the caller's array followed by at most one such
path, from the picker's raw path. `OpenFolderMultiSelectDialog` returns the caller's
array followed by one such path for each non-empty path of the driver, in the
driver's order, each path judged by its own raw path: from `/a` and `/b//` it
returns `/a/`, which ends in exactly one separator, and `/b//`. -/
theorem openDirectory_trailing_separator :
    (∀ (Picker : IDesktopPlatform) (Handle : Nat) (DialogTitle DefaultPath : FString)
        (bMultiSelect : Bool) (OutDirectories : List FString),
        ∃ Added : List FString,
          (DialogManagerLinux.OpenDirectoryDialog ⟨some Picker, some Handle⟩ DialogTitle
            DefaultPath bMultiSelect OutDirectories).2 = OutDirectories ++ Added ∧
          Added.length ≤ 1 ∧
          ∀ Path ∈ Added, Path.getLast? = some '/' ∧
            (¬ TEXT "//" <:+ (Picker.OpenDirectoryDialog Handle DialogTitle DefaultPath).2 →
              EndsInExactlyOneSeparator Path) ∧
            ((Picker.OpenDirectoryDialog Handle DialogTitle DefaultPath).2.getLast? = some '/' →
              Path = (Picker.OpenDirectoryDialog Handle DialogTitle DefaultPath).2)) ∧
      (∀ (DialogMan : DialogManager) (Directories : List FString)
        (DialogTitle DefaultPath : FString),
        ∃ Added : List FString,
          (OpenFolderMultiSelectDialog (some DialogMan) Directories DialogTitle DefaultPath).2
            = Directories ++ Added ∧
          (∀ Path ∈ Added, Path.getLast? = some '/') ∧
          List.Forall₂
            (fun Raw Path =>
              (¬ TEXT "//" <:+ Raw → EndsInExactlyOneSeparator Path) ∧
                (Raw.getLast? = some '/' → Path = Raw))
            (if (DialogMan.OpenDirectoryDialog DialogTitle DefaultPath true []).1 then
              (DialogMan.OpenDirectoryDialog DialogTitle DefaultPath true []).2.filter
                (· ≠ TEXT "")
            else [])
            Added) ∧
      OpenFolderMultiSelectDialog (some mixedSeparatorDriver) [] (TEXT "Pick") (TEXT "")
        = (true, [TEXT "/a/", TEXT "/b//"]) ∧
      EndsInExactlyOneSeparator (TEXT "/a/") := by
  refine ⟨?_, ?_, by decide, by decide⟩
  · intro Picker Handle DialogTitle DefaultPath bMultiSelect OutDirectories
    unfold DialogManagerLinux.OpenDirectoryDialog
    simp only [appendSeparator_eq]
    by_cases hok : (Picker.OpenDirectoryDialog Handle DialogTitle DefaultPath).1 = true
    · by_cases hne :
          FString.ne (Picker.OpenDirectoryDialog Handle DialogTitle DefaultPath).2 (TEXT "") = true
      · refine ⟨[withTrailingSeparator
          (Picker.OpenDirectoryDialog Handle DialogTitle DefaultPath).2], ?_, by simp, ?_⟩
        · simp only [hok, hne, if_true]
        · intro Path hPath
          rw [List.mem_singleton] at hPath
          subst hPath
          exact ⟨withTrailingSeparator_getLast _,
            fun hraw => withTrailingSeparator_exactlyOne _ hraw,
            fun hslash => withTrailingSeparator_of_slash _ hslash⟩
      · refine ⟨[], ?_, by simp, by simp⟩
        simp only [hok, if_true]
        rw [if_neg hne, List.append_nil]
    · exact ⟨[], by simp [hok], by simp, by simp⟩
  · intro DialogMan Directories DialogTitle DefaultPath
    refine ⟨_, openFolder_snd DialogMan Directories DialogTitle DefaultPath, ?_, ?_⟩
    · intro Path hPath
      unfold normalisedDirectories at hPath
      split_ifs at hPath with hok
      · obtain ⟨Raw, -, rfl⟩ := List.mem_map.1 hPath
        exact withTrailingSeparator_getLast Raw
      · simp at hPath
    · unfold normalisedDirectories
      by_cases hok : (DialogMan.OpenDirectoryDialog DialogTitle DefaultPath true []).1 = true
      · rw [if_pos hok, if_pos hok, List.forall₂_map_right_iff]
        show List.Forall₂ _
          ((DialogMan.OpenDirectoryDialog DialogTitle DefaultPath true []).2.filter (· ≠ []))
          ((DialogMan.OpenDirectoryDialog DialogTitle DefaultPath true []).2.filter (· ≠ []))
        rw [List.forall₂_same]
        intro Raw _
        exact ⟨fun hraw => withTrailingSeparator_exactlyOne Raw hraw,
          fun hslash => withTrailingSeparator_of_slash Raw hslash⟩
      · rw [if_neg hok, if_neg hok]
        exact List.Forall₂.nil

/-! ## The synchronous driver: facts -/

/-- The two embeddings of each `DialogManagerLinux` method agree on the return value
and the out-array. -/
theorem linuxDialogs_traced_agree (Platform : LinuxPlatform)
    (DialogTitle DefaultPath DefaultFile FileTypes : FString) (bMultiSelect : Bool)
    (Out : List FString) :
    ((DialogManagerLinux.OpenFileDialog.traced Platform DialogTitle DefaultPath FileTypes
          bMultiSelect Out).ReturnValue,
        (DialogManagerLinux.OpenFileDialog.traced Platform DialogTitle DefaultPath FileTypes
          bMultiSelect Out).OutArray) =
        DialogManagerLinux.OpenFileDialog Platform DialogTitle DefaultPath FileTypes
          bMultiSelect Out ∧
      ((DialogManagerLinux.SaveFileDialog.traced Platform DialogTitle DefaultPath DefaultFile
          FileTypes bMultiSelect Out).ReturnValue,
        (DialogManagerLinux.SaveFileDialog.traced Platform DialogTitle DefaultPath DefaultFile
          FileTypes bMultiSelect Out).OutArray) =
        DialogManagerLinux.SaveFileDialog Platform DialogTitle DefaultPath DefaultFile
          FileTypes bMultiSelect Out ∧
      ((DialogManagerLinux.OpenDirectoryDialog.traced Platform DialogTitle DefaultPath
          bMultiSelect Out).ReturnValue,
        (DialogManagerLinux.OpenDirectoryDialog.traced Platform DialogTitle DefaultPath
          bMultiSelect Out).OutArray) =
        DialogManagerLinux.OpenDirectoryDialog Platform DialogTitle DefaultPath
          bMultiSelect Out := by
  obtain ⟨DesktopPlatform, ParentWindowHandle⟩ := Platform
  cases DesktopPlatform with
  | none => exact ⟨rfl, rfl, rfl⟩
  | some Picker =>
    cases ParentWindowHandle with
    | none => exact ⟨rfl, rfl, rfl⟩
    | some Handle =>
      refine ⟨?_, ?_, ?_⟩
      · unfold DialogManagerLinux.OpenFileDialog.traced DialogManagerLinux.OpenFileDialog
        simp only []
        generalize Picker.OpenFileDialog Handle DialogTitle DefaultPath (TEXT "") FileTypes
          (if bMultiSelect then EFileDialogFlags.Multiple else EFileDialogFlags.None) = Native
        obtain ⟨Ok, Paths⟩ := Native
        cases Ok with
        | false => simp
        | true =>
          cases Paths with
          | nil => simp
          | cons First Rest => cases hF : FString.ne First [] <;> simp [hF]
      · unfold DialogManagerLinux.SaveFileDialog.traced DialogManagerLinux.SaveFileDialog
        simp only []
        generalize Picker.SaveFileDialog Handle DialogTitle DefaultPath DefaultFile FileTypes
          EFileDialogFlags.None = Native
        obtain ⟨Ok, Paths⟩ := Native
        cases Ok with
        | false => simp
        | true =>
          cases Paths with
          | nil => simp
          | cons First Rest => cases hF : FString.ne First [] <;> simp [hF]
      · simp only [DialogManagerLinux.OpenDirectoryDialog.traced,
          DialogManagerLinux.OpenDirectoryDialog]
        split_ifs <;> rfl

/-- With both references available each `DialogManagerLinux` method opens exactly one
native dialog, with the arguments of the source. -/
theorem linuxDialogs_traced_one_call (Picker : IDesktopPlatform) (Handle : Nat)
    (DialogTitle DefaultPath DefaultFile FileTypes : FString) (bMultiSelect : Bool)
    (Out : List FString) :
    (DialogManagerLinux.OpenFileDialog.traced ⟨some Picker, some Handle⟩ DialogTitle
          DefaultPath FileTypes bMultiSelect Out).NativeCalls =
        [NativeCall.OpenFileDialog Handle DialogTitle DefaultPath (TEXT "") FileTypes
          (if bMultiSelect then EFileDialogFlags.Multiple else EFileDialogFlags.None)] ∧
      (DialogManagerLinux.SaveFileDialog.traced ⟨some Picker, some Handle⟩ DialogTitle
          DefaultPath DefaultFile FileTypes bMultiSelect Out).NativeCalls =
        [NativeCall.SaveFileDialog Handle DialogTitle DefaultPath DefaultFile FileTypes
          EFileDialogFlags.None] ∧
      (DialogManagerLinux.OpenDirectoryDialog.traced ⟨some Picker, some Handle⟩ DialogTitle
          DefaultPath bMultiSelect Out).NativeCalls =
        [NativeCall.OpenDirectoryDialog Handle DialogTitle DefaultPath] := by
  refine ⟨?_, ?_, ?_⟩
  · unfold DialogManagerLinux.OpenFileDialog.traced
    simp only []
    generalize Picker.OpenFileDialog Handle DialogTitle DefaultPath (TEXT "") FileTypes
      (if bMultiSelect then EFileDialogFlags.Multiple else EFileDialogFlags.None) = Native
    obtain ⟨Ok, Paths⟩ := Native
    cases Ok with
    | false => simp
    | true =>
      cases Paths with
      | nil => simp
      | cons First Rest => cases hF : FString.ne First [] <;> simp [hF]
  · unfold DialogManagerLinux.SaveFileDialog.traced
    simp only []
    generalize Picker.SaveFileDialog Handle DialogTitle DefaultPath DefaultFile FileTypes
      EFileDialogFlags.None = Native
    obtain ⟨Ok, Paths⟩ := Native
    cases Ok with
    | false => simp
    | true =>
      cases Paths with
      | nil => simp
      | cons First Rest => cases hF : FString.ne First [] <;> simp [hF]
  · simp only [DialogManagerLinux.OpenDirectoryDialog.traced]
    split_ifs <;> rfl

/-! ## The synchronous driver: the claims -/

/-- C11: with the platform handles available, `DialogManagerLinux::OpenDirectoryDialog`
returns true and appends exactly one entry when the native picker reports success
with a non-empty raw path `P`, whatever `bMultiSelect` is: `P` itself if `P` ends
with `/`, otherwise `P` followed by `/`; when the picker reports failure or an
empty path it returns false and leaves `OutDirectories` unchanged. -/
theorem linuxOpenDirectory_result (Picker : IDesktopPlatform) (Handle : Nat)
    (DialogTitle DefaultPath : FString) (bMultiSelect : Bool)
    (OutDirectories : List FString) :
    (∀ P : FString, Picker.OpenDirectoryDialog Handle DialogTitle DefaultPath = (true, P) →
        P ≠ TEXT "" →
        DialogManagerLinux.OpenDirectoryDialog ⟨some Picker, some Handle⟩ DialogTitle
            DefaultPath bMultiSelect OutDirectories =
          (true, OutDirectories ++ [if P.getLast? = some '/' then P else P ++ TEXT "/"])) ∧
      ((Picker.OpenDirectoryDialog Handle DialogTitle DefaultPath).1 = false ∨
          (Picker.OpenDirectoryDialog Handle DialogTitle DefaultPath).2 = TEXT "" →
        DialogManagerLinux.OpenDirectoryDialog ⟨some Picker, some Handle⟩ DialogTitle
            DefaultPath bMultiSelect OutDirectories =
          (false, OutDirectories)) := by
  constructor
  · intro P hP hne
    have hne2 : FString.ne P (TEXT "") = true := (FString.ne_nil_iff P).2 hne
    simp only [DialogManagerLinux.OpenDirectoryDialog, hP, hne2, if_true, appendSeparator_eq]
    rfl
  · intro h
    rcases h with h | h
    · simp [DialogManagerLinux.OpenDirectoryDialog, h]
    · have hne2 : FString.ne (Picker.OpenDirectoryDialog Handle DialogTitle DefaultPath).2
          (TEXT "") = false := by
        rw [← Bool.not_eq_true, FString.ne_nil_iff]; exact fun hc => hc h
      simp only [DialogManagerLinux.OpenDirectoryDialog, hne2]
      simp

/-- C11, at the raw path `/home/user/docs`, for both values of `bMultiSelect`. -/
theorem linuxOpenDirectory_result_witness :
    DialogManagerLinux.OpenDirectoryDialog ⟨some docsPicker, some 1⟩ (TEXT "Pick") (TEXT "")
        false [] = (true, [TEXT "/home/user/docs/"]) ∧
      DialogManagerLinux.OpenDirectoryDialog ⟨some docsPicker, some 1⟩ (TEXT "Pick") (TEXT "")
        true [TEXT "/tmp/"] = (true, [TEXT "/tmp/", TEXT "/home/user/docs/"]) :=
  ⟨(linuxOpenDirectory_result docsPicker 1 (TEXT "Pick") (TEXT "") false []).1
      (TEXT "/home/user/docs") rfl (by decide),
    (linuxOpenDirectory_result docsPicker 1 (TEXT "Pick") (TEXT "") true [TEXT "/tmp/"]).1
      (TEXT "/home/user/docs") rfl (by decide)⟩

/-- C20: when the desktop-platform reference or the parent-window handle is null,
`DialogManagerLinux`'s `OpenFileDialog`, `SaveFileDialog` and `OpenDirectoryDialog`
return false, open no native dialog (the list of their calls into `IDesktopPlatform`
is empty) and leave the output array unchanged, whatever the native dialogs would
report. -/
theorem linuxDialogs_without_handles (Platform : LinuxPlatform)
    (h : Platform.DesktopPlatform = none ∨ Platform.ParentWindowHandle = none)
    (DialogTitle DefaultPath DefaultFile FileTypes : FString) (bMultiSelect : Bool)
    (Out : List FString) :
    DialogManagerLinux.OpenFileDialog.traced Platform DialogTitle DefaultPath FileTypes
        bMultiSelect Out = ⟨false, Out, []⟩ ∧
      DialogManagerLinux.SaveFileDialog.traced Platform DialogTitle DefaultPath DefaultFile
        FileTypes bMultiSelect Out = ⟨false, Out, []⟩ ∧
      DialogManagerLinux.OpenDirectoryDialog.traced Platform DialogTitle DefaultPath
        bMultiSelect Out = ⟨false, Out, []⟩ ∧
      DialogManagerLinux.OpenFileDialog Platform DialogTitle DefaultPath FileTypes bMultiSelect
        Out = (false, Out) ∧
      DialogManagerLinux.SaveFileDialog Platform DialogTitle DefaultPath DefaultFile FileTypes
        bMultiSelect Out = (false, Out) ∧
      DialogManagerLinux.OpenDirectoryDialog Platform DialogTitle DefaultPath bMultiSelect
        Out = (false, Out) := by
  obtain ⟨DesktopPlatform, ParentWindowHandle⟩ := Platform
  rcases h with h | h
  · simp only at h
    subst h
    exact ⟨rfl, rfl, rfl, rfl, rfl, rfl⟩
  · simp only at h
    subst h
    cases DesktopPlatform <;> exact ⟨rfl, rfl, rfl, rfl, rfl, rfl⟩

/-- C20, at a platform whose picker would report success but whose window handle is
null, and at one without the desktop-platform reference: no native dialog is opened.
With the handle present the same picker is called once. -/
theorem linuxDialogs_without_handles_witness :
    DialogManagerLinux.OpenFileDialog.traced ⟨some docsPicker, none⟩ (TEXT "Open") (TEXT "")
        (TEXT "*.txt") true [TEXT "kept"] = ⟨false, [TEXT "kept"], []⟩ ∧
      DialogManagerLinux.SaveFileDialog.traced ⟨some docsPicker, none⟩ (TEXT "Save") (TEXT "")
        (TEXT "a.txt") (TEXT "*.txt") false [TEXT "kept"] = ⟨false, [TEXT "kept"], []⟩ ∧
      DialogManagerLinux.OpenDirectoryDialog.traced ⟨none, some 1⟩ (TEXT "Pick") (TEXT "") false
        [TEXT "kept"] = ⟨false, [TEXT "kept"], []⟩ ∧
      DialogManagerLinux.OpenDirectoryDialog.traced ⟨some docsPicker, none⟩ (TEXT "Pick")
        (TEXT "") false [TEXT "kept"] = ⟨false, [TEXT "kept"], []⟩ ∧
      DialogManagerLinux.OpenDirectoryDialog.traced ⟨some docsPicker, some 1⟩ (TEXT "Pick")
        (TEXT "") false [TEXT "kept"] =
        ⟨true, [TEXT "kept", TEXT "/home/user/docs/"],
          [NativeCall.OpenDirectoryDialog 1 (TEXT "Pick") (TEXT "")]⟩ :=
  ⟨(linuxDialogs_without_handles ⟨some docsPicker, none⟩ (Or.inr rfl) (TEXT "Open") (TEXT "")
      (TEXT "") (TEXT "*.txt") true [TEXT "kept"]).1,
    (linuxDialogs_without_handles ⟨some docsPicker, none⟩ (Or.inr rfl) (TEXT "Save") (TEXT "")
      (TEXT "a.txt") (TEXT "*.txt") false [TEXT "kept"]).2.1,
    (linuxDialogs_without_handles ⟨none, some 1⟩ (Or.inl rfl) (TEXT "Pick") (TEXT "")
      (TEXT "") (TEXT "") false [TEXT "kept"]).2.2.1,
    (linuxDialogs_without_handles ⟨some docsPicker, none⟩ (Or.inr rfl) (TEXT "Pick") (TEXT "")
      (TEXT "") (TEXT "") false [TEXT "kept"]).2.2.1,
    by decide⟩

/-! ## The dialog entry points: facts -/

theorem openSave_of_call (DialogMan : DialogManager) (SaveToPath : FString)
    (DialogTitle DefaultPath DefaultFileName FileTypes : FString) (Ok : Bool)
    (Paths : List FString)
    (hCall : DialogMan.SaveFileDialog DialogTitle DefaultPath DefaultFileName FileTypes
      false [] = (Ok, Paths)) :
    OpenSaveFileDialog (some DialogMan) SaveToPath DialogTitle DefaultPath DefaultFileName
        FileTypes =
      if Ok = true ∧ Paths.headD [] ≠ [] then (true, Paths.headD []) else (false, SaveToPath) := by
  unfold OpenSaveFileDialog
  simp only []
  generalize DialogMan.SaveFileDialog DialogTitle DefaultPath DefaultFileName FileTypes
    false [] = Call at hCall
  subst hCall
  cases Ok with
  | false => simp
  | true =>
    cases Paths with
    | nil => simp
    | cons First Rest =>
      by_cases hF : First = []
      · subst hF
        have h2 : FString.ne [] [] = false := rfl
        simp [h2]
      · have h2 : FString.ne First [] = true := (FString.ne_nil_iff First).2 hF
        simp [hF, h2]

theorem filter_ne_nil_of_blank (Paths : List FString) (h : ∀ Path ∈ Paths, Path = TEXT "") :
    Paths.filter (· ≠ []) = [] := by
  rw [List.filter_eq_nil_iff]
  intro Path hPath
  simp [h Path hPath]

/-- What the three entry points do when the driver reports success with a list
that is empty or holds only empty strings: `OpenSaveFileDialog` returns false and
keeps `SaveToPath`; `OpenFolderMultiSelectDialog` adds nothing and returns whether
the caller's `Directories` is non-empty; `OpenFileMultiSelectDialog` returns false
when the list is empty. -/
theorem entryPoints_on_blank_lists (DialogMan : DialogManager)
    (DialogTitle DefaultPath DefaultFileName FileTypes SaveToPath : FString)
    (AllowMultiSelect : Bool) (Out : List FString) :
    (∀ Paths, DialogMan.SaveFileDialog DialogTitle DefaultPath DefaultFileName FileTypes
        false [] = (true, Paths) → (∀ Path ∈ Paths, Path = TEXT "") →
      OpenSaveFileDialog (some DialogMan) SaveToPath DialogTitle DefaultPath DefaultFileName
        FileTypes = (false, SaveToPath)) ∧
    (∀ Paths, DialogMan.OpenDirectoryDialog DialogTitle DefaultPath true [] = (true, Paths) →
        (∀ Path ∈ Paths, Path = TEXT "") →
      OpenFolderMultiSelectDialog (some DialogMan) Out DialogTitle DefaultPath =
        (decide (Out.length > 0), Out)) ∧
    (DialogMan.OpenFileDialog DialogTitle DefaultPath FileTypes AllowMultiSelect Out
        = (true, []) →
      OpenFileMultiSelectDialog (some DialogMan) Out DialogTitle DefaultPath AllowMultiSelect
        FileTypes = (false, [])) := by
  refine ⟨?_, ?_, ?_⟩
  · intro Paths hCall hBlank
    rw [openSave_of_call DialogMan SaveToPath DialogTitle DefaultPath DefaultFileName FileTypes
      true Paths hCall]
    cases Paths with
    | nil => rfl
    | cons First Rest =>
      have hF : First = [] := hBlank First (List.mem_cons_self _ _)
      simp [hF]
  · intro Paths hCall hBlank
    unfold OpenFolderMultiSelectDialog
    simp only [hCall, if_true, openFolderLoop_eq, filter_ne_nil_of_blank Paths hBlank,
      List.map_nil, List.append_nil]
  · intro hCall
    unfold OpenFileMultiSelectDialog
    simp [hCall]

/-! ## The dialog entry points: the claims -/

/-- C12: two of the three entry points return true on a blank result.
`OpenFileMultiSelectDialog` returns true with the list `[""]`, both when the driver
reports success with the single empty path and when the driver reports success
and leaves the caller's `[""]` as it is; `OpenFolderMultiSelectDialog` returns true
when the driver reports success with no path and the caller's array already holds
a path. `OpenSaveFileDialog` returns false on both drivers. -/
theorem entryPoints_accept_blank_lists :
    blankDriver.OpenFileDialog (TEXT "Open") (TEXT "") (TEXT "*.*") false [] =
        (true, [TEXT ""]) ∧
      OpenFileMultiSelectDialog (some blankDriver) [] (TEXT "Open") (TEXT "") false
        (TEXT "*.*") = (true, [TEXT ""]) ∧
      OpenFileMultiSelectDialog (some optimisticDriver) [TEXT ""] (TEXT "Open") (TEXT "") false
        (TEXT "*.*") = (true, [TEXT ""]) ∧
      optimisticDriver.OpenDirectoryDialog (TEXT "Pick") (TEXT "") true [] = (true, []) ∧
      OpenFolderMultiSelectDialog (some optimisticDriver) [TEXT "/tmp/"] (TEXT "Pick")
        (TEXT "") = (true, [TEXT "/tmp/"]) ∧
      OpenSaveFileDialog (some blankDriver) (TEXT "old") (TEXT "Save") (TEXT "") (TEXT "")
        (TEXT "*.*") = (false, TEXT "old") ∧
      OpenSaveFileDialog (some optimisticDriver) (TEXT "old") (TEXT "Save") (TEXT "")
        (TEXT "") (TEXT "*.*") = (false, TEXT "old") := by
  decide

/-- C13: `OpenSaveFileDialog` returns true exactly when a driver exists, its
`SaveFileDialog` (called with `bMultiSelect` false and an empty array) returns true
and leaves a list whose first path is non-empty; `SaveToPath` is then that first
path, and in every other case it is left unchanged. -/
theorem openSaveFileDialog_result (DialogMan : Option DialogManager)
    (SaveToPath DialogTitle DefaultPath DefaultFileName FileTypes : FString) :
    ((OpenSaveFileDialog DialogMan SaveToPath DialogTitle DefaultPath DefaultFileName
          FileTypes).1 = true ↔
        ∃ Driver First Rest, DialogMan = some Driver ∧
          Driver.SaveFileDialog DialogTitle DefaultPath DefaultFileName FileTypes false []
            = (true, First :: Rest) ∧ First ≠ TEXT "") ∧
      (∀ Driver First Rest, DialogMan = some Driver →
        Driver.SaveFileDialog DialogTitle DefaultPath DefaultFileName FileTypes false []
          = (true, First :: Rest) → First ≠ TEXT "" →
        OpenSaveFileDialog DialogMan SaveToPath DialogTitle DefaultPath DefaultFileName
          FileTypes = (true, First)) ∧
      ((OpenSaveFileDialog DialogMan SaveToPath DialogTitle DefaultPath DefaultFileName
          FileTypes).1 = false →
        (OpenSaveFileDialog DialogMan SaveToPath DialogTitle DefaultPath DefaultFileName
          FileTypes).2 = SaveToPath) := by
  cases DialogMan with
  | none =>
    refine ⟨⟨fun h => ?_, fun ⟨_, _, _, h, _⟩ => ?_⟩, fun _ _ _ h => ?_, fun _ => rfl⟩
    · simp [OpenSaveFileDialog] at h
    · cases h
    · cases h
  | some Driver =>
    rcases hCall : Driver.SaveFileDialog DialogTitle DefaultPath DefaultFileName FileTypes
      false [] with ⟨Ok, Paths⟩
    rw [openSave_of_call Driver SaveToPath DialogTitle DefaultPath DefaultFileName FileTypes
      Ok Paths hCall]
    refine ⟨⟨fun h => ?_, ?_⟩, ?_, fun h => ?_⟩
    · cases Ok with
      | false => simp at h
      | true =>
        cases Paths with
        | nil => simp at h
        | cons First Rest =>
          by_cases hF : First = []
          · simp [hF] at h
          · exact ⟨Driver, First, Rest, rfl, hCall, hF⟩
    · rintro ⟨Driver2, First, Rest, hD, hC, hF⟩
      cases hD
      have hF2 : First ≠ [] := hF
      rw [hCall] at hC
      cases hC
      simp [hF2]
    · intro Driver2 First Rest hD hC hF
      cases hD
      have hF2 : First ≠ [] := hF
      rw [hCall] at hC
      cases hC
      simp [hF2]
    · cases Ok with
      | false => rfl
      | true =>
        cases Paths with
        | nil => rfl
        | cons First Rest =>
          by_cases hF : First = []
          · simp [hF]
          · simp [hF] at h

/-- C14: the base `DialogManager`'s `OpenFileDialog`, `SaveFileDialog` and
`OpenDirectoryDialog` return false and leave the output array unchanged, and with
no driver instance `OpenFolderMultiSelectDialog`, `OpenFileMultiSelectDialog` and
`OpenSaveFileDialog` return false and leave their output parameter unchanged. -/
theorem unsupportedPlatform_fails
    (DialogTitle DefaultPath DefaultFile FileTypes SaveToPath : FString)
    (bMultiSelect : Bool) (Out : List FString) :
    DialogManagerBase.OpenFileDialog DialogTitle DefaultPath FileTypes bMultiSelect Out
        = (false, Out) ∧
      DialogManagerBase.SaveFileDialog DialogTitle DefaultPath DefaultFile FileTypes
        bMultiSelect Out = (false, Out) ∧
      DialogManagerBase.OpenDirectoryDialog DialogTitle DefaultPath bMultiSelect Out
        = (false, Out) ∧
      OpenFolderMultiSelectDialog none Out DialogTitle DefaultPath = (false, Out) ∧
      OpenFileMultiSelectDialog none Out DialogTitle DefaultPath bMultiSelect FileTypes
        = (false, Out) ∧
      OpenSaveFileDialog none SaveToPath DialogTitle DefaultPath DefaultFile FileTypes
        = (false, SaveToPath) :=
  ⟨rfl, rfl, rfl, rfl, rfl, rfl⟩

/-! ## The asynchronous driver: facts -/

theorem NewMimeTypeArray_loop (MimeTypes : List FString) (k : Nat)
    (hk : k ≤ MimeTypes.length) :
    (List.range k).foldl (fun jMimeTypes i => jMimeTypes.set i (MimeTypes.get? i))
        (List.replicate MimeTypes.length none)
      = (MimeTypes.take k).map some ++ List.replicate (MimeTypes.length - k) none := by
  induction k with
  | zero => simp
  | succ k ih =>
    have hk2 : k < MimeTypes.length := hk
    rw [List.range_succ, List.foldl_append, ih (Nat.le_of_lt hk2)]
    have hlen : MimeTypes.length - k = (MimeTypes.length - (k + 1)) + 1 := by omega
    rw [List.foldl_cons, List.foldl_nil, hlen, List.replicate_succ, List.set_append]
    have h1 : ¬ k < (List.map some (List.take k MimeTypes)).length := by
      simp [List.length_take, Nat.min_eq_left (Nat.le_of_lt hk2)]
    have h2 : k - (List.map some (List.take k MimeTypes)).length = 0 := by
      simp [List.length_take, Nat.min_eq_left (Nat.le_of_lt hk2)]
    rw [if_neg h1, h2, List.set_cons_zero, List.take_succ, List.map_append]
    simp [List.getElem?_eq_getElem hk2]

/-- The Java array built from `MimeTypes` holds its strings, in order, and no null
element. -/
theorem NewMimeTypeArray_eq (MimeTypes : List FString) :
    NewMimeTypeArray MimeTypes = MimeTypes.map some := by
  unfold NewMimeTypeArray
  rw [NewMimeTypeArray_loop MimeTypes MimeTypes.length (Nat.le_refl _)]
  simp

theorem androidSaveFileDialog_issued (Self : DialogManagerAndroid) (Platform : AndroidPlatform)
    (hAndroid : Platform.PLATFORM_ANDROID = true) (hEnv : Platform.JavaEnv ≠ none)
    (Method : Nat)
    (hMethod : Platform.FindMethod "AndroidThunkJava_fflSaveFileDialog"
      "(Ljava/lang/String;Landroid/net/Uri;[Ljava/lang/String;Z)V" = some Method)
    (DialogTitle DefaultPath DefaultFile FileTypes : FString) (bMultiSelect : Bool)
    (OutFilenames : List FString) :
    DialogManagerAndroid.SaveFileDialog Self Platform DialogTitle DefaultPath DefaultFile
        FileTypes bMultiSelect OutFilenames =
      .returned ⟨true, OutFilenames, Self,
        [⟨Method, [.jstring (some DefaultFile), .jobject none,
          .jobjectArray (NewMimeTypeArray (ConvertFileTypesToMimeTypes FileTypes)),
          .jboolean bMultiSelect]⟩]⟩ := by
  obtain ⟨Env, hE⟩ := Option.ne_none_iff_exists'.1 hEnv
  simp only [DialogManagerAndroid.SaveFileDialog, hAndroid, hE, hMethod, if_true]

/-! ## The asynchronous driver: the claims -/

/-- C15: when the Java environment handle is null, `DialogManagerAndroid`'s
`OpenFileDialog`, `SaveFileDialog` and `OpenDirectoryDialog` return (no `checkf`
fails) with the value false, the output array and the object's fields unchanged, and
no Java call issued. -/
theorem androidDialogs_without_env (Platform : AndroidPlatform)
    (hEnv : Platform.JavaEnv = none) (Self : DialogManagerAndroid)
    (DialogTitle DefaultPath DefaultFile FileTypes : FString) (bMultiSelect : Bool)
    (Out : List FString) :
    DialogManagerAndroid.OpenFileDialog Self Platform DialogTitle DefaultPath FileTypes
        bMultiSelect Out = .returned ⟨false, Out, Self, []⟩ ∧
      DialogManagerAndroid.SaveFileDialog Self Platform DialogTitle DefaultPath DefaultFile
        FileTypes bMultiSelect Out = .returned ⟨false, Out, Self, []⟩ ∧
      DialogManagerAndroid.OpenDirectoryDialog Self Platform DialogTitle DefaultPath
        bMultiSelect Out = .returned ⟨false, Out, Self, []⟩ := by
  refine ⟨?_, ?_, ?_⟩
  · unfold DialogManagerAndroid.OpenFileDialog
    rw [hEnv]; split_ifs <;> rfl
  · unfold DialogManagerAndroid.SaveFileDialog
    rw [hEnv]; split_ifs <;> rfl
  · unfold DialogManagerAndroid.OpenDirectoryDialog
    rw [hEnv]; split_ifs <;> rfl

/-- C15, at an Android platform without a Java environment, called with an empty
output array. -/
theorem androidDialogs_without_env_witness :
    DialogManagerAndroid.OpenFileDialog {} noEnvPlatform (TEXT "Open") (TEXT "/sdcard")
        (TEXT "Text (*.txt)|*.txt") true [] = .returned ⟨false, [], {}, []⟩ ∧
      DialogManagerAndroid.SaveFileDialog {} noEnvPlatform (TEXT "Save") (TEXT "/sdcard")
        (TEXT "a.txt") (TEXT "Text (*.txt)|*.txt") false [] = .returned ⟨false, [], {}, []⟩ ∧
      DialogManagerAndroid.OpenDirectoryDialog {} noEnvPlatform (TEXT "Pick") (TEXT "/sdcard")
        false [] = .returned ⟨false, [], {}, []⟩ :=
  ⟨(androidDialogs_without_env noEnvPlatform rfl {} (TEXT "Open") (TEXT "/sdcard") (TEXT "")
      (TEXT "Text (*.txt)|*.txt") true []).1,
    (androidDialogs_without_env noEnvPlatform rfl {} (TEXT "Save") (TEXT "/sdcard")
      (TEXT "a.txt") (TEXT "Text (*.txt)|*.txt") false []).2.1,
    (androidDialogs_without_env noEnvPlatform rfl {} (TEXT "Pick") (TEXT "/sdcard") (TEXT "")
      (TEXT "") false []).2.2⟩

/-- C17: on an Android build with the Java environment available and the method
resolved, each of `OpenFileDialog`, `SaveFileDialog` and `OpenDirectoryDialog`
returns true, issues exactly one Java call, and leaves the output array and the
object's fields as the caller passed them. -/
theorem androidDialogs_optimistic (Platform : AndroidPlatform)
    (hAndroid : Platform.PLATFORM_ANDROID = true) (hEnv : Platform.JavaEnv ≠ none)
    (Self : DialogManagerAndroid)
    (DialogTitle DefaultPath DefaultFile FileTypes : FString) (bMultiSelect : Bool)
    (Out : List FString) (Method : Nat) :
    (Platform.FindMethod "AndroidThunkJava_fflOpenFileDialog"
          "(Landroid/net/Uri;[Ljava/lang/String;Z)V" = some Method →
        ∃ Call : JavaCall,
          DialogManagerAndroid.OpenFileDialog Self Platform DialogTitle DefaultPath FileTypes
            bMultiSelect Out = .returned ⟨true, Out, Self, [Call]⟩ ∧ Call.Method = Method) ∧
      (Platform.FindMethod "AndroidThunkJava_fflSaveFileDialog"
          "(Ljava/lang/String;Landroid/net/Uri;[Ljava/lang/String;Z)V" = some Method →
        ∃ Call : JavaCall,
          DialogManagerAndroid.SaveFileDialog Self Platform DialogTitle DefaultPath DefaultFile
            FileTypes bMultiSelect Out = .returned ⟨true, Out, Self, [Call]⟩ ∧
          Call.Method = Method) ∧
      (Platform.FindMethod "AndroidThunkJava_fflOpenDirectoryDialog" "(Landroid/net/Uri;Z)V"
          = some Method →
        ∃ Call : JavaCall,
          DialogManagerAndroid.OpenDirectoryDialog Self Platform DialogTitle DefaultPath
            bMultiSelect Out = .returned ⟨true, Out, Self, [Call]⟩ ∧ Call.Method = Method) := by
  obtain ⟨Env, hE⟩ := Option.ne_none_iff_exists'.1 hEnv
  refine ⟨fun hM => ?_, fun hM => ?_, fun hM => ?_⟩
  · refine ⟨⟨Method, [.jobject none,
      .jobjectArray (NewMimeTypeArray (ConvertFileTypesToMimeTypes FileTypes)),
      .jboolean bMultiSelect]⟩, ?_, rfl⟩
    simp only [DialogManagerAndroid.OpenFileDialog, hAndroid, hE, hM, if_true]
  · exact ⟨_, androidSaveFileDialog_issued Self Platform hAndroid hEnv Method hM DialogTitle
      DefaultPath DefaultFile FileTypes bMultiSelect Out, rfl⟩
  · refine ⟨⟨Method, [.jobject none, .jboolean bMultiSelect]⟩, ?_, rfl⟩
    simp only [DialogManagerAndroid.OpenDirectoryDialog, hAndroid, hE, hM, if_true]

/-- C17, at an Android platform on which every method is found, called with an
output array that already holds a path. -/
theorem androidDialogs_optimistic_witness :
    (∃ Call : JavaCall,
        DialogManagerAndroid.OpenFileDialog {} readyPlatform (TEXT "Open") (TEXT "")
          (TEXT "*.txt") true [TEXT "kept"] = .returned ⟨true, [TEXT "kept"], {}, [Call]⟩ ∧
        Call.Method = 7) ∧
      (∃ Call : JavaCall,
        DialogManagerAndroid.SaveFileDialog {} readyPlatform (TEXT "Save") (TEXT "")
          (TEXT "a.txt") (TEXT "*.txt") false [TEXT "kept"]
          = .returned ⟨true, [TEXT "kept"], {}, [Call]⟩ ∧ Call.Method = 7) ∧
      (∃ Call : JavaCall,
        DialogManagerAndroid.OpenDirectoryDialog {} readyPlatform (TEXT "Pick") (TEXT "")
          false [TEXT "kept"] = .returned ⟨true, [TEXT "kept"], {}, [Call]⟩ ∧
        Call.Method = 7) :=
  ⟨(androidDialogs_optimistic readyPlatform rfl (by decide) {} (TEXT "Open") (TEXT "")
      (TEXT "") (TEXT "*.txt") true [TEXT "kept"] 7).1 rfl,
    (androidDialogs_optimistic readyPlatform rfl (by decide) {} (TEXT "Save") (TEXT "")
      (TEXT "a.txt") (TEXT "*.txt") false [TEXT "kept"] 7).2.1 rfl,
    (androidDialogs_optimistic readyPlatform rfl (by decide) {} (TEXT "Pick") (TEXT "")
      (TEXT "") (TEXT "") false [TEXT "kept"] 7).2.2 rfl⟩

/-- C18: `HandleDialogResults(P)` leaves the pending result equal to `P`, whatever it
held before, and the received flag set. -/
theorem handleDialogResults_replaces (Self : DialogManagerAndroid) (Paths : List FString) :
    (DialogManagerAndroid.HandleDialogResults Self Paths).Results = Paths ∧
      (DialogManagerAndroid.HandleDialogResults Self Paths).bRecievedResults = true ∧
      DialogManagerAndroid.HandleDialogResults Self Paths = ⟨true, Paths⟩ :=
  ⟨rfl, rfl, rfl⟩

/-- C19: after a save-dialog dispatch that returns and a callback that delivers the
path `content://foo`, the pending state holds exactly that path with the received
flag set; a first read gives it, `ResetResults` is what clears the state, and a
second read gives the empty list with the flag false. -/
theorem pendingResults_one_shot (Self : DialogManagerAndroid) (Platform : AndroidPlatform)
    (hAndroid : Platform.PLATFORM_ANDROID = true) (hEnv : Platform.JavaEnv ≠ none)
    (Method : Nat)
    (hMethod : Platform.FindMethod "AndroidThunkJava_fflSaveFileDialog"
      "(Ljava/lang/String;Landroid/net/Uri;[Ljava/lang/String;Z)V" = some Method)
    (DialogTitle DefaultPath DefaultFile FileTypes : FString) (bMultiSelect : Bool)
    (OutFilenames : List FString) :
    ∃ Dispatch : AndroidDialogReturn,
      DialogManagerAndroid.SaveFileDialog Self Platform DialogTitle DefaultPath DefaultFile
          FileTypes bMultiSelect OutFilenames = .returned Dispatch ∧
        Dispatch.ReturnValue = true ∧
        Java_com_epicgames_unreal_GameActivity_fflHandleOnDialogResult Dispatch.Self
            (some (TEXT "content://foo")) = ⟨true, [TEXT "content://foo"]⟩ ∧
        DialogManagerAndroid.ConsumeResults
            (Java_com_epicgames_unreal_GameActivity_fflHandleOnDialogResult Dispatch.Self
              (some (TEXT "content://foo"))) =
          ((true, [TEXT "content://foo"]),
            DialogManagerAndroid.ResetResults
              (Java_com_epicgames_unreal_GameActivity_fflHandleOnDialogResult Dispatch.Self
                (some (TEXT "content://foo")))) ∧
        DialogManagerAndroid.ResetResults
            (Java_com_epicgames_unreal_GameActivity_fflHandleOnDialogResult Dispatch.Self
              (some (TEXT "content://foo"))) = ⟨false, []⟩ ∧
        (DialogManagerAndroid.ConsumeResults
            (DialogManagerAndroid.ConsumeResults
              (Java_com_epicgames_unreal_GameActivity_fflHandleOnDialogResult Dispatch.Self
                (some (TEXT "content://foo")))).2).1 = (false, []) :=
  ⟨_, androidSaveFileDialog_issued Self Platform hAndroid hEnv Method hMethod DialogTitle
      DefaultPath DefaultFile FileTypes bMultiSelect OutFilenames, rfl, rfl, rfl, rfl, rfl⟩

/-- C19, at an Android platform on which every method is found, from a driver
object that still holds an earlier payload. -/
theorem pendingResults_one_shot_witness :
    ∃ Dispatch : AndroidDialogReturn,
      DialogManagerAndroid.SaveFileDialog ⟨true, [TEXT "content://old"]⟩ readyPlatform
          (TEXT "Save") (TEXT "") (TEXT "a.txt") (TEXT "*.txt") false []
          = .returned Dispatch ∧
        Dispatch.ReturnValue = true ∧
        Java_com_epicgames_unreal_GameActivity_fflHandleOnDialogResult Dispatch.Self
            (some (TEXT "content://foo")) = ⟨true, [TEXT "content://foo"]⟩ ∧
        DialogManagerAndroid.ConsumeResults
            (Java_com_epicgames_unreal_GameActivity_fflHandleOnDialogResult Dispatch.Self
              (some (TEXT "content://foo"))) =
          ((true, [TEXT "content://foo"]),
            DialogManagerAndroid.ResetResults
              (Java_com_epicgames_unreal_GameActivity_fflHandleOnDialogResult Dispatch.Self
                (some (TEXT "content://foo")))) ∧
        DialogManagerAndroid.ResetResults
            (Java_com_epicgames_unreal_GameActivity_fflHandleOnDialogResult Dispatch.Self
              (some (TEXT "content://foo"))) = ⟨false, []⟩ ∧
        (DialogManagerAndroid.ConsumeResults
            (DialogManagerAndroid.ConsumeResults
              (Java_com_epicgames_unreal_GameActivity_fflHandleOnDialogResult Dispatch.Self
                (some (TEXT "content://foo")))).2).1 = (false, []) :=
  pendingResults_one_shot ⟨true, [TEXT "content://old"]⟩ readyPlatform rfl (by decide) 7 rfl
    (TEXT "Save") (TEXT "") (TEXT "a.txt") (TEXT "*.txt") false []

/-! ## The synchronous driver: file dialogs -/

theorem linuxOpenFile_of_native (Picker : IDesktopPlatform) (Handle : Nat)
    (DialogTitle DefaultPath FileTypes : FString) (bMultiSelect : Bool)
    (Out : List FString) (Ok : Bool) (Paths : List FString)
    (hNative : Picker.OpenFileDialog Handle DialogTitle DefaultPath (TEXT "") FileTypes
      (if bMultiSelect then EFileDialogFlags.Multiple else EFileDialogFlags.None)
      = (Ok, Paths)) :
    DialogManagerLinux.OpenFileDialog ⟨some Picker, some Handle⟩ DialogTitle DefaultPath
        FileTypes bMultiSelect Out =
      if Ok = true ∧ Paths.headD [] ≠ [] then (true, Paths) else (false, Out) := by
  unfold DialogManagerLinux.OpenFileDialog
  simp only []
  generalize Picker.OpenFileDialog Handle DialogTitle DefaultPath (TEXT "") FileTypes
    (if bMultiSelect then EFileDialogFlags.Multiple else EFileDialogFlags.None)
    = Native at hNative
  subst hNative
  cases Ok with
  | false => simp
  | true =>
    cases Paths with
    | nil => simp
    | cons First Rest =>
      by_cases hF : First = []
      · subst hF
        have h2 : FString.ne [] [] = false := rfl
        simp [h2]
      · have h2 : FString.ne First [] = true := (FString.ne_nil_iff First).2 hF
        simp [hF, h2]

theorem linuxSaveFile_of_native (Picker : IDesktopPlatform) (Handle : Nat)
    (DialogTitle DefaultPath DefaultFile FileTypes : FString) (bMultiSelect : Bool)
    (Out : List FString) (Ok : Bool) (Paths : List FString)
    (hNative : Picker.SaveFileDialog Handle DialogTitle DefaultPath DefaultFile FileTypes
      EFileDialogFlags.None = (Ok, Paths)) :
    DialogManagerLinux.SaveFileDialog ⟨some Picker, some Handle⟩ DialogTitle DefaultPath
        DefaultFile FileTypes bMultiSelect Out =
      if Ok = true ∧ Paths.headD [] ≠ [] then (true, Paths) else (false, Out) := by
  unfold DialogManagerLinux.SaveFileDialog
  simp only []
  generalize Picker.SaveFileDialog Handle DialogTitle DefaultPath DefaultFile FileTypes
    EFileDialogFlags.None = Native at hNative
  subst hNative
  cases Ok with
  | false => simp
  | true =>
    cases Paths with
    | nil => simp
    | cons First Rest =>
      by_cases hF : First = []
      · subst hF
        have h2 : FString.ne [] [] = false := rfl
        simp [h2]
      · have h2 : FString.ne First [] = true := (FString.ne_nil_iff First).2 hF
        simp [hF, h2]

theorem atomic_of_cases (Out : List FString) (Ok : Bool) (Paths : List FString)
    (R : Bool × List FString)
    (hR : R = if Ok = true ∧ Paths.headD [] ≠ [] then (true, Paths) else (false, Out)) :
    (R.1 = true ↔ Ok = true ∧ ∃ First Rest, Paths = First :: Rest ∧ First ≠ TEXT "") ∧
      (R.1 = true → R.2 = Paths) ∧ (R.1 = false → R.2 = Out) := by
  subst hR
  by_cases h : Ok = true ∧ Paths.headD [] ≠ []
  · rw [if_pos h]
    refine ⟨⟨fun _ => ⟨h.1, ?_⟩, fun _ => rfl⟩, fun _ => rfl, fun hc => by simp at hc⟩
    cases Paths with
    | nil => exact absurd rfl h.2
    | cons First Rest => exact ⟨First, Rest, rfl, h.2⟩
  · rw [if_neg h]
    refine ⟨⟨fun hc => by simp at hc, ?_⟩, fun hc => by simp at hc, fun _ => rfl⟩
    rintro ⟨hOk, First, Rest, rfl, hF⟩
    exact absurd ⟨hOk, hF⟩ h

/-- C21: with the handles available, `DialogManagerLinux::OpenFileDialog` and
`SaveFileDialog` return true exactly when the native dialog reported success with a
path list whose first path exists and is non-empty; the output array is then the
full native list, and in every other case it is the array the caller passed. -/
theorem linuxFileDialogs_atomic (Picker : IDesktopPlatform) (Handle : Nat)
    (DialogTitle DefaultPath DefaultFile FileTypes : FString) (bMultiSelect : Bool)
    (Out : List FString) :
    ((DialogManagerLinux.OpenFileDialog ⟨some Picker, some Handle⟩ DialogTitle DefaultPath
          FileTypes bMultiSelect Out).1 = true ↔
        (Picker.OpenFileDialog Handle DialogTitle DefaultPath (TEXT "") FileTypes
          (if bMultiSelect then EFileDialogFlags.Multiple else EFileDialogFlags.None)).1
            = true ∧
        ∃ First Rest,
          (Picker.OpenFileDialog Handle DialogTitle DefaultPath (TEXT "") FileTypes
            (if bMultiSelect then EFileDialogFlags.Multiple else EFileDialogFlags.None)).2
              = First :: Rest ∧ First ≠ TEXT "") ∧
      ((DialogManagerLinux.OpenFileDialog ⟨some Picker, some Handle⟩ DialogTitle DefaultPath
          FileTypes bMultiSelect Out).1 = true →
        (DialogManagerLinux.OpenFileDialog ⟨some Picker, some Handle⟩ DialogTitle DefaultPath
          FileTypes bMultiSelect Out).2 =
        (Picker.OpenFileDialog Handle DialogTitle DefaultPath (TEXT "") FileTypes
          (if bMultiSelect then EFileDialogFlags.Multiple else EFileDialogFlags.None)).2) ∧
      ((DialogManagerLinux.OpenFileDialog ⟨some Picker, some Handle⟩ DialogTitle DefaultPath
          FileTypes bMultiSelect Out).1 = false →
        (DialogManagerLinux.OpenFileDialog ⟨some Picker, some Handle⟩ DialogTitle DefaultPath
          FileTypes bMultiSelect Out).2 = Out) ∧
      ((DialogManagerLinux.SaveFileDialog ⟨some Picker, some Handle⟩ DialogTitle DefaultPath
          DefaultFile FileTypes bMultiSelect Out).1 = true ↔
        (Picker.SaveFileDialog Handle DialogTitle DefaultPath DefaultFile FileTypes
          EFileDialogFlags.None).1 = true ∧
        ∃ First Rest,
          (Picker.SaveFileDialog Handle DialogTitle DefaultPath DefaultFile FileTypes
            EFileDialogFlags.None).2 = First :: Rest ∧ First ≠ TEXT "") ∧
      ((DialogManagerLinux.SaveFileDialog ⟨some Picker, some Handle⟩ DialogTitle DefaultPath
          DefaultFile FileTypes bMultiSelect Out).1 = true →
        (DialogManagerLinux.SaveFileDialog ⟨some Picker, some Handle⟩ DialogTitle DefaultPath
          DefaultFile FileTypes bMultiSelect Out).2 =
        (Picker.SaveFileDialog Handle DialogTitle DefaultPath DefaultFile FileTypes
          EFileDialogFlags.None).2) ∧
      ((DialogManagerLinux.SaveFileDialog ⟨some Picker, some Handle⟩ DialogTitle DefaultPath
          DefaultFile FileTypes bMultiSelect Out).1 = false →
        (DialogManagerLinux.SaveFileDialog ⟨some Picker, some Handle⟩ DialogTitle DefaultPath
          DefaultFile FileTypes bMultiSelect Out).2 = Out) := by
  have hO := atomic_of_cases Out _ _ _
    (linuxOpenFile_of_native Picker Handle DialogTitle DefaultPath FileTypes bMultiSelect Out
      _ _ rfl)
  have hS := atomic_of_cases Out _ _ _
    (linuxSaveFile_of_native Picker Handle DialogTitle DefaultPath DefaultFile FileTypes
      bMultiSelect Out _ _ rfl)
  exact ⟨hO.1, hO.2.1, hO.2.2, hS.1, hS.2.1, hS.2.2⟩

/-! ## The asynchronous driver: payload, frame and callbacks -/

theorem androidOpenFileDialog_cases (Self : DialogManagerAndroid) (Platform : AndroidPlatform)
    (DialogTitle DefaultPath FileTypes : FString) (bMultiSelect : Bool) (Out : List FString) :
    (∃ Ok Calls, DialogManagerAndroid.OpenFileDialog Self Platform DialogTitle DefaultPath
        FileTypes bMultiSelect Out = .returned ⟨Ok, Out, Self, Calls⟩) ∨
      (DialogManagerAndroid.OpenFileDialog Self Platform DialogTitle DefaultPath FileTypes
          bMultiSelect Out = .fatal ∧
        Platform.FindMethod "AndroidThunkJava_fflOpenFileDialog"
          "(Landroid/net/Uri;[Ljava/lang/String;Z)V" = none) := by
  unfold DialogManagerAndroid.OpenFileDialog
  cases Platform.PLATFORM_ANDROID with
  | false => exact Or.inl ⟨false, [], rfl⟩
  | true =>
    cases Platform.JavaEnv with
    | none => exact Or.inl ⟨false, [], rfl⟩
    | some Env =>
      cases hM : Platform.FindMethod "AndroidThunkJava_fflOpenFileDialog"
          "(Landroid/net/Uri;[Ljava/lang/String;Z)V" with
      | none => exact Or.inr ⟨by simp, rfl⟩
      | some Method => exact Or.inl ⟨true, _, rfl⟩

theorem androidSaveFileDialog_cases (Self : DialogManagerAndroid) (Platform : AndroidPlatform)
    (DialogTitle DefaultPath DefaultFile FileTypes : FString) (bMultiSelect : Bool)
    (Out : List FString) :
    (∃ Ok Calls, DialogManagerAndroid.SaveFileDialog Self Platform DialogTitle DefaultPath
        DefaultFile FileTypes bMultiSelect Out = .returned ⟨Ok, Out, Self, Calls⟩) ∨
      (DialogManagerAndroid.SaveFileDialog Self Platform DialogTitle DefaultPath DefaultFile
          FileTypes bMultiSelect Out = .fatal ∧
        Platform.FindMethod "AndroidThunkJava_fflSaveFileDialog"
          "(Ljava/lang/String;Landroid/net/Uri;[Ljava/lang/String;Z)V" = none) := by
  unfold DialogManagerAndroid.SaveFileDialog
  cases Platform.PLATFORM_ANDROID with
  | false => exact Or.inl ⟨false, [], rfl⟩
  | true =>
    cases Platform.JavaEnv with
    | none => exact Or.inl ⟨false, [], rfl⟩
    | some Env =>
      cases hM : Platform.FindMethod "AndroidThunkJava_fflSaveFileDialog"
          "(Ljava/lang/String;Landroid/net/Uri;[Ljava/lang/String;Z)V" with
      | none => exact Or.inr ⟨by simp, rfl⟩
      | some Method => exact Or.inl ⟨true, _, rfl⟩

theorem androidOpenDirectoryDialog_cases (Self : DialogManagerAndroid)
    (Platform : AndroidPlatform) (DialogTitle DefaultPath : FString) (bMultiSelect : Bool)
    (Out : List FString) :
    (∃ Ok Calls, DialogManagerAndroid.OpenDirectoryDialog Self Platform DialogTitle
        DefaultPath bMultiSelect Out = .returned ⟨Ok, Out, Self, Calls⟩) ∨
      (DialogManagerAndroid.OpenDirectoryDialog Self Platform DialogTitle DefaultPath
          bMultiSelect Out = .fatal ∧
        Platform.FindMethod "AndroidThunkJava_fflOpenDirectoryDialog" "(Landroid/net/Uri;Z)V"
          = none) := by
  unfold DialogManagerAndroid.OpenDirectoryDialog
  cases Platform.PLATFORM_ANDROID with
  | false => exact Or.inl ⟨false, [], rfl⟩
  | true =>
    cases Platform.JavaEnv with
    | none => exact Or.inl ⟨false, [], rfl⟩
    | some Env =>
      cases hM : Platform.FindMethod "AndroidThunkJava_fflOpenDirectoryDialog"
          "(Landroid/net/Uri;Z)V" with
      | none => exact Or.inr ⟨by simp, rfl⟩
      | some Method => exact Or.inl ⟨true, _, rfl⟩

theorem foldl_add_some (Elements : List (Option FString)) (Init : List FString) :
    Elements.foldl
        (fun ReturnStrings jPath =>
          match jPath with
          | some PathString => ReturnStrings ++ [PathString]
          | none => ReturnStrings)
        Init
      = Init ++ Elements.filterMap id := by
  induction Elements generalizing Init with
  | nil => simp
  | cons jPath Elements ih =>
    cases jPath with
    | none => simpa using ih Init
    | some PathString => simpa using ih (Init ++ [PathString])

/-- C22: on an Android build with the Java environment available, the Java call of
`OpenFileDialog` carries (null default path, the strings of
`ConvertFileTypesToMimeTypes(FileTypes)` in order, `bMultiSelect`), that of
`SaveFileDialog` carries `DefaultFile` before them, and that of `OpenDirectoryDialog`
carries (null default path, `bMultiSelect`); on every platform, two calls that differ
only in `DialogTitle` and `DefaultPath` end the same way, with the same Java calls. -/
theorem androidDialogs_payload (Platform : AndroidPlatform)
    (hAndroid : Platform.PLATFORM_ANDROID = true) (hEnv : Platform.JavaEnv ≠ none)
    (Self : DialogManagerAndroid)
    (DialogTitle DefaultPath DefaultFile FileTypes : FString) (bMultiSelect : Bool)
    (Out : List FString) (Method : Nat) :
    (Platform.FindMethod "AndroidThunkJava_fflOpenFileDialog"
          "(Landroid/net/Uri;[Ljava/lang/String;Z)V" = some Method →
        DialogManagerAndroid.OpenFileDialog Self Platform DialogTitle DefaultPath FileTypes
            bMultiSelect Out =
          .returned ⟨true, Out, Self,
            [⟨Method, [.jobject none,
              .jobjectArray ((ConvertFileTypesToMimeTypes FileTypes).map some),
              .jboolean bMultiSelect]⟩]⟩) ∧
      (Platform.FindMethod "AndroidThunkJava_fflSaveFileDialog"
          "(Ljava/lang/String;Landroid/net/Uri;[Ljava/lang/String;Z)V" = some Method →
        DialogManagerAndroid.SaveFileDialog Self Platform DialogTitle DefaultPath DefaultFile
            FileTypes bMultiSelect Out =
          .returned ⟨true, Out, Self,
            [⟨Method, [.jstring (some DefaultFile), .jobject none,
              .jobjectArray ((ConvertFileTypesToMimeTypes FileTypes).map some),
              .jboolean bMultiSelect]⟩]⟩) ∧
      (Platform.FindMethod "AndroidThunkJava_fflOpenDirectoryDialog" "(Landroid/net/Uri;Z)V"
          = some Method →
        DialogManagerAndroid.OpenDirectoryDialog Self Platform DialogTitle DefaultPath
            bMultiSelect Out =
          .returned ⟨true, Out, Self, [⟨Method, [.jobject none, .jboolean bMultiSelect]⟩]⟩) ∧
      (∀ OtherTitle OtherPath : FString,
        DialogManagerAndroid.OpenFileDialog Self Platform OtherTitle OtherPath FileTypes
            bMultiSelect Out =
          DialogManagerAndroid.OpenFileDialog Self Platform DialogTitle DefaultPath FileTypes
            bMultiSelect Out ∧
        DialogManagerAndroid.SaveFileDialog Self Platform OtherTitle OtherPath DefaultFile
            FileTypes bMultiSelect Out =
          DialogManagerAndroid.SaveFileDialog Self Platform DialogTitle DefaultPath DefaultFile
            FileTypes bMultiSelect Out ∧
        DialogManagerAndroid.OpenDirectoryDialog Self Platform OtherTitle OtherPath
            bMultiSelect Out =
          DialogManagerAndroid.OpenDirectoryDialog Self Platform DialogTitle DefaultPath
            bMultiSelect Out) := by
  obtain ⟨Env, hE⟩ := Option.ne_none_iff_exists'.1 hEnv
  refine ⟨fun hM => ?_, fun hM => ?_, fun hM => ?_, fun _ _ => ⟨rfl, rfl, rfl⟩⟩
  · simp only [DialogManagerAndroid.OpenFileDialog, hAndroid, hE, hM, if_true,
      NewMimeTypeArray_eq]
  · rw [androidSaveFileDialog_issued Self Platform hAndroid hEnv Method hM, NewMimeTypeArray_eq]
  · simp only [DialogManagerAndroid.OpenDirectoryDialog, hAndroid, hE, hM, if_true]

/-- C22, at a platform on which every method is found: the filter `*.png|*.txt`
gives the array of `image/png` and `text/plain`, and the default path `/sdcard` is
not passed. -/
theorem androidDialogs_payload_witness :
    DialogManagerAndroid.OpenFileDialog {} readyPlatform (TEXT "Open") (TEXT "/sdcard")
        (TEXT "*.png|*.txt") true [] =
      .returned ⟨true, [], {},
        [⟨7, [.jobject none, .jobjectArray [some (TEXT "image/png"), some (TEXT "text/plain")],
          .jboolean true]⟩]⟩ ∧
    DialogManagerAndroid.SaveFileDialog {} readyPlatform (TEXT "Save") (TEXT "/sdcard")
        (TEXT "a.png") (TEXT "*.png|*.txt") false [] =
      .returned ⟨true, [], {},
        [⟨7, [.jstring (some (TEXT "a.png")), .jobject none,
          .jobjectArray [some (TEXT "image/png"), some (TEXT "text/plain")],
          .jboolean false]⟩]⟩ ∧
    DialogManagerAndroid.OpenDirectoryDialog {} readyPlatform (TEXT "Pick") (TEXT "/sdcard")
        true [] =
      .returned ⟨true, [], {}, [⟨7, [.jobject none, .jboolean true]⟩]⟩ :=
  ⟨(androidDialogs_payload readyPlatform rfl (by decide) {} (TEXT "Open") (TEXT "/sdcard")
      (TEXT "") (TEXT "*.png|*.txt") true [] 7).1 rfl,
    (androidDialogs_payload readyPlatform rfl (by decide) {} (TEXT "Save") (TEXT "/sdcard")
      (TEXT "a.png") (TEXT "*.png|*.txt") false [] 7).2.1 rfl,
    (androidDialogs_payload readyPlatform rfl (by decide) {} (TEXT "Pick") (TEXT "/sdcard")
      (TEXT "") (TEXT "") true [] 7).2.2.1 rfl⟩

/-- C26: each of `OpenFileDialog`, `SaveFileDialog` and `OpenDirectoryDialog` of
`DialogManagerAndroid` either returns with the object's fields (pending result and
received flag) and the out-array exactly as they were, or ends in the failed `checkf`
of a null method id; dispatched after a callback has stored `Paths`, a dialog that
returns leaves `Paths` stored and the flag set. -/
theorem androidDialogs_keep_pending (Self : DialogManagerAndroid) (Platform : AndroidPlatform)
    (DialogTitle DefaultPath DefaultFile FileTypes : FString) (bMultiSelect : Bool)
    (Out Paths : List FString) :
    ((∃ Ok Calls, DialogManagerAndroid.OpenFileDialog Self Platform DialogTitle DefaultPath
          FileTypes bMultiSelect Out = .returned ⟨Ok, Out, Self, Calls⟩) ∨
        DialogManagerAndroid.OpenFileDialog Self Platform DialogTitle DefaultPath FileTypes
          bMultiSelect Out = .fatal) ∧
      ((∃ Ok Calls, DialogManagerAndroid.SaveFileDialog Self Platform DialogTitle DefaultPath
          DefaultFile FileTypes bMultiSelect Out = .returned ⟨Ok, Out, Self, Calls⟩) ∨
        DialogManagerAndroid.SaveFileDialog Self Platform DialogTitle DefaultPath DefaultFile
          FileTypes bMultiSelect Out = .fatal) ∧
      ((∃ Ok Calls, DialogManagerAndroid.OpenDirectoryDialog Self Platform DialogTitle
          DefaultPath bMultiSelect Out = .returned ⟨Ok, Out, Self, Calls⟩) ∨
        DialogManagerAndroid.OpenDirectoryDialog Self Platform DialogTitle DefaultPath
          bMultiSelect Out = .fatal) ∧
      (∀ R, DialogManagerAndroid.OpenFileDialog (DialogManagerAndroid.HandleDialogResults Self
            Paths) Platform DialogTitle DefaultPath FileTypes bMultiSelect Out = .returned R →
          R.Self = ⟨true, Paths⟩) ∧
      (∃ R, DialogManagerAndroid.OpenFileDialog (DialogManagerAndroid.HandleDialogResults Self
            Paths) readyPlatform DialogTitle DefaultPath FileTypes bMultiSelect Out
            = .returned R ∧ R.ReturnValue = true ∧ R.Self = ⟨true, Paths⟩) := by
  refine ⟨?_, ?_, ?_, ?_, ⟨_, rfl, rfl, rfl⟩⟩
  · exact (androidOpenFileDialog_cases Self Platform DialogTitle DefaultPath FileTypes
      bMultiSelect Out).imp id And.left
  · exact (androidSaveFileDialog_cases Self Platform DialogTitle DefaultPath DefaultFile
      FileTypes bMultiSelect Out).imp id And.left
  · exact (androidOpenDirectoryDialog_cases Self Platform DialogTitle DefaultPath bMultiSelect
      Out).imp id And.left
  · intro R hR
    rcases androidOpenFileDialog_cases (DialogManagerAndroid.HandleDialogResults Self Paths)
      Platform DialogTitle DefaultPath FileTypes bMultiSelect Out with ⟨Ok, Calls, h⟩ | ⟨h, -⟩
    · rw [h] at hR
      cases hR
      rfl
    · rw [h] at hR
      cases hR

/-- C28: the single-path callback with a null string and the multi-path callback
with a null array leave the driver object as it was; the multi-path callback with an
array stores its non-null elements in order and sets the received flag, also when
no element is left. -/
theorem callbacks_null_payloads (Self : DialogManagerAndroid)
    (Elements : List (Option FString)) :
    Java_com_epicgames_unreal_GameActivity_fflHandleOnDialogResult Self none = Self ∧
      Java_com_epicgames_unreal_GameActivity_fflHandleOnDialogResultMulti Self none = Self ∧
      Java_com_epicgames_unreal_GameActivity_fflHandleOnDialogResultMulti Self (some Elements)
        = ⟨true, Elements.filterMap id⟩ ∧
      Java_com_epicgames_unreal_GameActivity_fflHandleOnDialogResultMulti Self
        (some [none, some (TEXT "content://a"), none, some (TEXT "content://b")])
        = ⟨true, [TEXT "content://a", TEXT "content://b"]⟩ ∧
      Java_com_epicgames_unreal_GameActivity_fflHandleOnDialogResultMulti Self (some [none, none])
        = ⟨true, []⟩ ∧
      Java_com_epicgames_unreal_GameActivity_fflHandleOnDialogResultMulti Self (some [])
        = ⟨true, []⟩ := by
  refine ⟨rfl, rfl, ?_, rfl, rfl, rfl⟩
  unfold Java_com_epicgames_unreal_GameActivity_fflHandleOnDialogResultMulti
  simp only [foldl_add_some, List.nil_append]
  rfl

/-! ## The single-result helpers -/

theorem index_zero_of_ne_nil (A : List FString) (h : A ≠ []) :
    TArray.Index A 0 = .returned (A.headD []) := by
  cases A with
  | nil => exact absurd rfl h
  | cons First Rest => rfl

theorem openFolderMulti_nonempty (DialogMan : Option DialogManager)
    (Directories : List FString) (DialogTitle DefaultPath : FString)
    (h : (OpenFolderMultiSelectDialog DialogMan Directories DialogTitle DefaultPath).1 = true) :
    (OpenFolderMultiSelectDialog DialogMan Directories DialogTitle DefaultPath).2 ≠ [] := by
  cases DialogMan with
  | none => simp [OpenFolderMultiSelectDialog] at h
  | some Driver =>
    simp only [OpenFolderMultiSelectDialog] at h ⊢
    by_cases hOk : (Driver.OpenDirectoryDialog DialogTitle DefaultPath true []).1 = true
    · simp only [hOk, if_true, decide_eq_true_eq] at h ⊢
      exact List.ne_nil_of_length_pos h
    · simp [hOk] at h

theorem openFileMulti_nonempty (DialogMan : Option DialogManager)
    (FilePaths : List FString) (DialogTitle DefaultPath : FString) (AllowMultiSelect : Bool)
    (FileTypes : FString)
    (h : (OpenFileMultiSelectDialog DialogMan FilePaths DialogTitle DefaultPath AllowMultiSelect
      FileTypes).1 = true) :
    (OpenFileMultiSelectDialog DialogMan FilePaths DialogTitle DefaultPath AllowMultiSelect
      FileTypes).2 ≠ [] := by
  cases DialogMan with
  | none => simp [OpenFileMultiSelectDialog] at h
  | some Driver =>
    simp only [OpenFileMultiSelectDialog] at h ⊢
    by_cases hOk : (Driver.OpenFileDialog DialogTitle DefaultPath FileTypes AllowMultiSelect
        FilePaths).1 = true
    · simp only [hOk, if_true, decide_eq_true_eq] at h ⊢
      exact List.ne_nil_of_length_pos h
    · simp [hOk] at h

theorem openFolderSelect_eq (DialogMan : Option DialogManager) (FolderPath : FString)
    (DialogTitle DefaultPath : FString) :
    OpenFolderSelectDialog DialogMan FolderPath DialogTitle DefaultPath =
      .returned
        (if (OpenFolderMultiSelectDialog DialogMan [] DialogTitle DefaultPath).1 = true then
          (true, (OpenFolderMultiSelectDialog DialogMan [] DialogTitle DefaultPath).2.headD [])
        else (false, FolderPath)) := by
  unfold OpenFolderSelectDialog
  simp only []
  by_cases h : (OpenFolderMultiSelectDialog DialogMan [] DialogTitle DefaultPath).1 = true
  · rw [if_pos h, if_pos h, index_zero_of_ne_nil _ (openFolderMulti_nonempty _ _ _ _ h)]
  · rw [if_neg h, if_neg h]

theorem openFileSelect_eq (DialogMan : Option DialogManager) (FilePath : FString)
    (DialogTitle DefaultPath FileTypes : FString) :
    OpenFileSelectDialog DialogMan FilePath DialogTitle DefaultPath FileTypes =
      .returned
        (if (OpenFileMultiSelectDialog DialogMan [] DialogTitle DefaultPath false
            FileTypes).1 = true then
          (true, (OpenFileMultiSelectDialog DialogMan [] DialogTitle DefaultPath false
            FileTypes).2.headD [])
        else (false, FilePath)) := by
  unfold OpenFileSelectDialog
  simp only []
  by_cases h : (OpenFileMultiSelectDialog DialogMan [] DialogTitle DefaultPath false
      FileTypes).1 = true
  · rw [if_pos h, if_pos h, index_zero_of_ne_nil _ (openFileMulti_nonempty _ _ _ _ _ _ h)]
  · rw [if_neg h, if_neg h]

theorem openSaveChecked_eq (DialogMan : Option DialogManager) (SaveToPath : FString)
    (DialogTitle DefaultPath DefaultFileName FileTypes : FString) :
    OpenSaveFileDialog.checked DialogMan SaveToPath DialogTitle DefaultPath DefaultFileName
        FileTypes =
      .returned (OpenSaveFileDialog DialogMan SaveToPath DialogTitle DefaultPath
        DefaultFileName FileTypes) := by
  cases DialogMan with
  | none => rfl
  | some Driver =>
    unfold OpenSaveFileDialog.checked OpenSaveFileDialog
    simp only []
    generalize Driver.SaveFileDialog DialogTitle DefaultPath DefaultFileName FileTypes
      false [] = Call
    obtain ⟨Ok, Paths⟩ := Call
    cases Ok with
    | false => simp
    | true =>
      cases Paths with
      | nil => simp
      | cons First Rest =>
        cases hF : FString.ne First [] <;> simp [TArray.Index, hF]

/-- C25, as stated, fails: no driver and no input make `OpenFileSelectDialog`,
`OpenFolderSelectDialog` or `OpenSaveFileDialog` read element 0 of an empty list,
that is, end in the failed range check; on a driver that reports success with no
path the three helpers return false. -/
theorem helpers_never_read_empty :
    (¬ ∃ (DialogMan : Option DialogManager)
        (Path DialogTitle DefaultPath DefaultFileName FileTypes : FString),
        OpenFileSelectDialog DialogMan Path DialogTitle DefaultPath FileTypes = .fatal ∨
        OpenFolderSelectDialog DialogMan Path DialogTitle DefaultPath = .fatal ∨
        OpenSaveFileDialog.checked DialogMan Path DialogTitle DefaultPath DefaultFileName
          FileTypes = .fatal) ∧
      OpenFileSelectDialog (some optimisticDriver) (TEXT "old") (TEXT "Open") (TEXT "")
        (TEXT "*.*") = .returned (false, TEXT "old") ∧
      OpenFolderSelectDialog (some optimisticDriver) (TEXT "old") (TEXT "Pick") (TEXT "")
        = .returned (false, TEXT "old") ∧
      OpenSaveFileDialog.checked (some optimisticDriver) (TEXT "old") (TEXT "Save") (TEXT "")
        (TEXT "") (TEXT "*.*") = .returned (false, TEXT "old") := by
  refine ⟨?_, by decide, by decide, by decide⟩
  rintro ⟨DialogMan, Path, DialogTitle, DefaultPath, DefaultFileName, FileTypes, h | h | h⟩
  · rw [openFileSelect_eq] at h
    cases h
  · rw [openFolderSelect_eq] at h
    cases h
  · rw [openSaveChecked_eq] at h
    cases h

/-- C25, amended: for every driver result the index-0 reads of the single-result
helpers are guarded. `OpenFolderSelectDialog` and `OpenFileSelectDialog` read element 0
only after the multi-select function returned true, which it does only with a
non-empty list, and `OpenSaveFileDialog` only behind `ReturnValue.Num() > 0`; each
helper returns, with the first path when it returns true and with its output string
unchanged otherwise. -/
theorem helpers_first_read_guarded (DialogMan : Option DialogManager)
    (Path DialogTitle DefaultPath DefaultFileName FileTypes : FString) :
    (OpenFolderSelectDialog DialogMan Path DialogTitle DefaultPath =
        .returned
          (if (OpenFolderMultiSelectDialog DialogMan [] DialogTitle DefaultPath).1 = true then
            (true, (OpenFolderMultiSelectDialog DialogMan [] DialogTitle DefaultPath).2.headD [])
          else (false, Path)) ∧
      ((OpenFolderMultiSelectDialog DialogMan [] DialogTitle DefaultPath).1 = true →
        (OpenFolderMultiSelectDialog DialogMan [] DialogTitle DefaultPath).2 ≠ [])) ∧
    (OpenFileSelectDialog DialogMan Path DialogTitle DefaultPath FileTypes =
        .returned
          (if (OpenFileMultiSelectDialog DialogMan [] DialogTitle DefaultPath false
              FileTypes).1 = true then
            (true, (OpenFileMultiSelectDialog DialogMan [] DialogTitle DefaultPath false
              FileTypes).2.headD [])
          else (false, Path)) ∧
      ((OpenFileMultiSelectDialog DialogMan [] DialogTitle DefaultPath false FileTypes).1
          = true →
        (OpenFileMultiSelectDialog DialogMan [] DialogTitle DefaultPath false FileTypes).2
          ≠ [])) ∧
    OpenSaveFileDialog.checked DialogMan Path DialogTitle DefaultPath DefaultFileName
        FileTypes =
      .returned (OpenSaveFileDialog DialogMan Path DialogTitle DefaultPath DefaultFileName
        FileTypes) :=
  ⟨⟨openFolderSelect_eq _ _ _ _, openFolderMulti_nonempty _ _ _ _⟩,
    ⟨openFileSelect_eq _ _ _ _ _, openFileMulti_nonempty _ _ _ _ _ _⟩,
    openSaveChecked_eq _ _ _ _ _ _⟩

theorem ToInt32_of_range (Value : Int) (hLow : -2147483648 ≤ Value)
    (hHigh : Value < 2147483648) : ToInt32 Value = Value := by
  unfold ToInt32
  omega

theorem ToInt32_idem (Value : Int) : ToInt32 (ToInt32 Value) = ToInt32 Value := by
  apply ToInt32_of_range <;> unfold ToInt32 <;> omega

theorem getFileOrDirectorySize_eq {σ : Type} (Files : FileLayer σ) (S : σ)
    (FileSizeBytes : Int) (Path : FString)
    (h : Files.DirectoryExists S Path = true ∨ Files.FileExists S Path = true) :
    GetFileOrDirectorySize Files S FileSizeBytes Path =
      (true, ToInt32 (Files.GetStatData S Path).FileSize) := by
  unfold GetFileOrDirectorySize GetFileOrDirectoryProperties VerifyDirectory VerifyFile
  by_cases hD : Files.DirectoryExists S Path = true
  · simp [hD, FPathProperties.Make, ToInt32_idem]
  · have hF : Files.FileExists S Path = true := h.resolve_left hD
    simp [hD, hF, FPathProperties.Make, ToInt32_idem]

theorem lastLine_loop (Init : List FString) (Last Start : FString) :
    (Init ++ [Last]).foldl (fun _ReturnString Line => Line ++ ['\n']) Start
      = Last ++ ['\n'] := by
  rw [List.foldl_append]
  rfl

/-- `LoadTextFileToString` on an existing file that loads as the lines
`Init ++ [Last]`: `FileContent` is the last line followed by a newline. -/
theorem loadTextFileToString_last_line {σ : Type} (Files : FileLayer σ) (S : σ)
    (FileContent PathToFile : FString) (Ok : Bool) (Init : List FString) (Last : FString)
    (hExists : Files.FileExists S PathToFile = true)
    (hLoad : Files.LoadFileToStringArray S PathToFile = (Ok, Init ++ [Last])) :
    LoadTextFileToString Files S FileContent PathToFile = (true, Last ++ ['\n']) := by
  unfold LoadTextFileToString VerifyFile
  simp only [hExists, hLoad, if_true, lastLine_loop]
  simp

theorem saveStringArrayToFile_eq {σ : Type} (Files : FileLayer σ) (S : σ)
    (PathToFile : FString) (FileContent : List FString) :
    SaveStringArrayToFile Files S PathToFile FileContent =
      (false, (Files.SaveStringArrayToFile S FileContent PathToFile).2) := rfl

/-! ## Files and directories: the claims -/

/-- C23: on an existing file that loads as the two lines `alpha` and `beta`,
`LoadTextFileToString` returns true with `FileContent` set to `beta` and a newline,
not to both lines: the loop assigns each line to the string instead of appending it. -/
theorem loadTextFileToString_keeps_last_line :
    (sampleFiles [TEXT "alpha", TEXT "beta"] 0 true).FileExists [] (TEXT "notes.txt") = true ∧
      (sampleFiles [TEXT "alpha", TEXT "beta"] 0 true).LoadFileToStringArray []
        (TEXT "notes.txt") = (true, [TEXT "alpha", TEXT "beta"]) ∧
      LoadTextFileToString (sampleFiles [TEXT "alpha", TEXT "beta"] 0 true) [] (TEXT "old")
        (TEXT "notes.txt") = (true, TEXT "beta\n") ∧
      LoadTextFileToString (sampleFiles [TEXT "alpha", TEXT "beta"] 0 true) [] (TEXT "old")
        (TEXT "notes.txt") ≠ (true, TEXT "alpha\nbeta\n") := by
  decide

/-- C24: for an existing file whose stat reports 2147483648 bytes,
`GetFileOrDirectorySize` returns true with `FileSizeBytes` equal to -2147483648, not
to the file's size in bytes: the 64-bit size of the stat is stored in an `int`. -/
theorem getFileOrDirectorySize_wraps :
    (sampleFiles [] 2147483648 true).FileExists [] (TEXT "notes.txt") = true ∧
      ((sampleFiles [] 2147483648 true).GetStatData [] (TEXT "notes.txt")).FileSize
        = 2147483648 ∧
      GetFileOrDirectorySize (sampleFiles [] 2147483648 true) [] 0 (TEXT "notes.txt")
        = (true, -2147483648) ∧
      GetFileOrDirectorySize (sampleFiles [] 2147483648 true) [] 0 (TEXT "notes.txt")
        ≠ (true, 2147483648) := by
  decide

/-- The extent of the truncation: for an existing file or directory whose stat
reports the size `s`, `GetFileOrDirectorySize` returns true with `FileSizeBytes` equal
to `s` converted to a 32-bit `int`, which is `s` itself when `-2^31 <= s < 2^31`. -/
theorem getFileOrDirectorySize_int {σ : Type} (Files : FileLayer σ) (S : σ)
    (FileSizeBytes : Int) (Path : FString)
    (h : Files.DirectoryExists S Path = true ∨ Files.FileExists S Path = true) :
    GetFileOrDirectorySize Files S FileSizeBytes Path =
        (true, ((Files.GetStatData S Path).FileSize + 2147483648) % 4294967296 - 2147483648) ∧
      (-2147483648 ≤ (Files.GetStatData S Path).FileSize →
        (Files.GetStatData S Path).FileSize < 2147483648 →
        GetFileOrDirectorySize Files S FileSizeBytes Path =
          (true, (Files.GetStatData S Path).FileSize)) := by
  refine ⟨getFileOrDirectorySize_eq Files S FileSizeBytes Path h, fun hLow hHigh => ?_⟩
  rw [getFileOrDirectorySize_eq Files S FileSizeBytes Path h, ToInt32_of_range _ hLow hHigh]

/-- The size of a file of 1024 bytes, and of the directory `src`, is returned as it
is. -/
theorem getFileOrDirectorySize_int_witness :
    GetFileOrDirectorySize (sampleFiles [] 1024 true) [] 0 (TEXT "notes.txt") = (true, 1024) ∧
      GetFileOrDirectorySize (sampleFiles [] 1024 true) [] 0 (TEXT "src") = (true, 1024) :=
  ⟨(getFileOrDirectorySize_int (sampleFiles [] 1024 true) [] 0 (TEXT "notes.txt")
      (Or.inr (by decide))).2 (by decide) (by decide),
    (getFileOrDirectorySize_int (sampleFiles [] 1024 true) [] 0 (TEXT "src")
      (Or.inl (by decide))).2 (by decide) (by decide)⟩

/-- C29, as stated, fails for `InsertStringArrayToFile`: on a file that loads as one
line, the call with `InsertAtIndex = 5` (or `-1`) does not return false; it ends in
`TArray::Insert`, called outside its range. -/
theorem insertStringArrayToFile_out_of_range :
    LoadTextFileToStringArray (sampleFiles [TEXT "alpha"] 0 true) [] [] (TEXT "notes.txt")
        = (true, [TEXT "alpha"]) ∧
      InsertStringArrayToFile (sampleFiles [TEXT "alpha"] 0 true) [] (TEXT "notes.txt")
        [TEXT "beta"] 5 = .fatal ∧
      InsertStringArrayToFile (sampleFiles [TEXT "alpha"] 0 true) [] (TEXT "notes.txt")
        [TEXT "beta"] (-1) = .fatal ∧
      (¬ ∃ S, InsertStringArrayToFile (sampleFiles [TEXT "alpha"] 0 true) [] (TEXT "notes.txt")
        [TEXT "beta"] 5 = .returned (false, S)) := by
  refine ⟨by decide, by decide, by decide, ?_⟩
  rintro ⟨S, hS⟩
  have h5 : InsertStringArrayToFile (sampleFiles [TEXT "alpha"] 0 true) [] (TEXT "notes.txt")
      [TEXT "beta"] 5 = .fatal := by decide
  rw [h5] at hS
  cases hS

/-- C29, amended: `SaveStringArrayToFile` returns false for every path and content,
whatever the underlying write reports, and the file system is left as the write
leaves it; `AppendStringArrayToFile` returns false for every input; and
`InsertStringArrayToFile` returns false whenever the file does not load or
`InsertAtIndex` lies between 0 and the number of loaded lines. -/
theorem stringArrayWriters_return_false {σ : Type} (Files : FileLayer σ) (S : σ)
    (PathToFile : FString) (FileContent : List FString) (InsertAtIndex : Int)
    (AppendFileToStringArray : Bool) :
    SaveStringArrayToFile Files S PathToFile FileContent =
        (false, (Files.SaveStringArrayToFile S FileContent PathToFile).2) ∧
      (AppendStringArrayToFile Files S PathToFile FileContent AppendFileToStringArray).1
        = false ∧
      ((LoadTextFileToStringArray Files S [] PathToFile).1 = false ∨
          (0 ≤ InsertAtIndex ∧
            InsertAtIndex ≤ (LoadTextFileToStringArray Files S [] PathToFile).2.length) →
        ∃ After, InsertStringArrayToFile Files S PathToFile FileContent InsertAtIndex
          = .returned (false, After)) := by
  refine ⟨rfl, ?_, ?_⟩
  · unfold AppendStringArrayToFile
    simp only [saveStringArrayToFile_eq]
    by_cases hL : (LoadTextFileToStringArray Files S [] PathToFile).1 = true
    · simp [hL]
    · simp [hL]
  · intro h
    unfold InsertStringArrayToFile
    simp only [saveStringArrayToFile_eq]
    by_cases hL : (LoadTextFileToStringArray Files S [] PathToFile).1 = true
    · have hIdx : 0 ≤ InsertAtIndex ∧
          InsertAtIndex ≤ (LoadTextFileToStringArray Files S [] PathToFile).2.length := by
        rcases h with h | h
        · rw [hL] at h; cases h
        · exact h
      simp only [hL, if_true, TArray.Insert, hIdx, and_self]
      exact ⟨_, rfl⟩
    · simp only [hL]
      exact ⟨S, rfl⟩

/-- C29, amended, on a file that loads as one line: the write is made, and the three
functions return false. -/
theorem stringArrayWriters_return_false_witness :
    SaveStringArrayToFile (sampleFiles [TEXT "alpha"] 0 true) [] (TEXT "notes.txt")
        [TEXT "beta"] = (false, [TEXT "SaveStringArrayToFile"]) ∧
      (AppendStringArrayToFile (sampleFiles [TEXT "alpha"] 0 true) [] (TEXT "notes.txt")
        [TEXT "beta"] false).1 = false ∧
      ∃ After, InsertStringArrayToFile (sampleFiles [TEXT "alpha"] 0 true) [] (TEXT "notes.txt")
        [TEXT "beta"] 1 = .returned (false, After) :=
  ⟨(stringArrayWriters_return_false (sampleFiles [TEXT "alpha"] 0 true) [] (TEXT "notes.txt")
      [TEXT "beta"] 1 false).1,
    (stringArrayWriters_return_false (sampleFiles [TEXT "alpha"] 0 true) [] (TEXT "notes.txt")
      [TEXT "beta"] 1 false).2.1,
    (stringArrayWriters_return_false (sampleFiles [TEXT "alpha"] 0 true) [] (TEXT "notes.txt")
      [TEXT "beta"] 1 false).2.2 (Or.inr (by decide))⟩

/-- C30: `MoveDirectory` returns true exactly when `CopyDirectory` returned true and
`DeleteDirectory` of the source, run on the file system the copy left, returned true;
when `CopyDirectory` returns false the result is false and the file system is the one
the copy left, so nothing is deleted, and when the source directory is missing the
file system is untouched. -/
theorem moveDirectory_result {σ : Type} (Files : FileLayer σ) (S : σ)
    (PathToDirectory NewPathToDirectory : FString) (AllowOvewrite : Bool) :
    ((MoveDirectory Files S PathToDirectory NewPathToDirectory AllowOvewrite).1 = true ↔
        (CopyDirectory Files S PathToDirectory NewPathToDirectory AllowOvewrite).1 = true ∧
        (DeleteDirectory Files
          (CopyDirectory Files S PathToDirectory NewPathToDirectory AllowOvewrite).2
          PathToDirectory).1 = true) ∧
      ((CopyDirectory Files S PathToDirectory NewPathToDirectory AllowOvewrite).1 = false →
        MoveDirectory Files S PathToDirectory NewPathToDirectory AllowOvewrite =
          (false, (CopyDirectory Files S PathToDirectory NewPathToDirectory AllowOvewrite).2)) ∧
      ((CopyDirectory Files S PathToDirectory NewPathToDirectory AllowOvewrite).1 = true →
        MoveDirectory Files S PathToDirectory NewPathToDirectory AllowOvewrite =
          DeleteDirectory Files
            (CopyDirectory Files S PathToDirectory NewPathToDirectory AllowOvewrite).2
            PathToDirectory) ∧
      (Files.DirectoryExists S PathToDirectory = false →
        MoveDirectory Files S PathToDirectory NewPathToDirectory AllowOvewrite = (false, S)) ∧
      MoveDirectory (sampleFiles [] 0 false) [] (TEXT "src") (TEXT "dst") true
        = (false, [TEXT "CopyDirectoryTree"]) ∧
      MoveDirectory (sampleFiles [] 0 true) [] (TEXT "src") (TEXT "dst") true
        = (true, [TEXT "CopyDirectoryTree", TEXT "DeleteDirectoryRecursively"]) := by
  have hDel : ∀ T : σ, DeleteDirectory Files T PathToDirectory =
      ((DeleteDirectory Files T PathToDirectory).1,
        (DeleteDirectory Files T PathToDirectory).2) := fun _ => rfl
  have hMove : MoveDirectory Files S PathToDirectory NewPathToDirectory AllowOvewrite =
      if (CopyDirectory Files S PathToDirectory NewPathToDirectory AllowOvewrite).1 = true then
        DeleteDirectory Files
          (CopyDirectory Files S PathToDirectory NewPathToDirectory AllowOvewrite).2
          PathToDirectory
      else (false, (CopyDirectory Files S PathToDirectory NewPathToDirectory AllowOvewrite).2)
      := by
    unfold MoveDirectory
    simp only []
    split_ifs with hC hD
    · exact Prod.ext hD.symm rfl
    · exact Prod.ext (by simpa using hD) rfl
    · rfl
  refine ⟨?_, ?_, ?_, ?_, by decide, by decide⟩
  · rw [hMove]
    split_ifs with hC
    · simp [hC]
    · simp [hC]
  · intro hC
    rw [hMove, if_neg (by simp [hC])]
  · intro hC
    rw [hMove, if_pos hC]
  · intro hSrc
    have hCopy : CopyDirectory Files S PathToDirectory NewPathToDirectory AllowOvewrite
        = (false, S) := by
      unfold CopyDirectory
      simp [hSrc]
    rw [hMove, hCopy]
    rfl

end FileSystemLibrary
